import Mathlib

/-!
# AsteroidGame: the per-frame simulation of `main.cpp`

A shallow embedding of the simulation core of `src/main.cpp`.

Modelling conventions.
* C++ `float` is modelled by `ℚ`: every arithmetic operation is exact.
* C++ `int` is modelled by `Int`; signed overflow is undefined behaviour in C++
  and lies outside the model.
* Functions of libm and raymath that leave the rationals (`cosf`, `sinf`,
  `Vector2Normalize`, the constant `PI`) are taken as parameters, collected in
  `Libm`.  A comparison `Vector2Distance a b < r` is modelled by the equivalent
  test on squares, `0 < r ∧ |a - b|² < r²`.
* Values read from the window system, the keyboard and the random generator are
  inputs of the frame step (`FrameInput`).
* The only loop of the program that need not terminate, the catch-up loop of the
  shooting step, is given fuel and returns `none` when the fuel runs out.
-/

namespace AsteroidGame

/-! ## Vectors and the external mathematical functions -/

/-- The `Vector2` of raylib, with exact rational components. -/
structure Vector2 where
  x : ℚ
  y : ℚ
deriving DecidableEq, Repr

/-- The function `Vector2Add` of raymath. -/
def Vector2Add (v1 v2 : Vector2) : Vector2 :=
  { x := v1.x + v2.x, y := v1.y + v2.y }

/-- The function `Vector2Subtract` of raymath. -/
def Vector2Subtract (v1 v2 : Vector2) : Vector2 :=
  { x := v1.x - v2.x, y := v1.y - v2.y }

/-- The function `Vector2Scale` of raymath. -/
def Vector2Scale (v : Vector2) (scale : ℚ) : Vector2 :=
  { x := v.x * scale, y := v.y * scale }

/-- The square of `Vector2Distance v1 v2`. -/
def Vector2DistanceSqr (v1 v2 : Vector2) : ℚ :=
  (v1.x - v2.x) * (v1.x - v2.x) + (v1.y - v2.y) * (v1.y - v2.y)

/-- The test `Vector2Distance v1 v2 < r`, decided on squares: a square root of a
non-negative number is below `r` exactly when `r` is positive and the number is
below `r²`. -/
def distanceLt (v1 v2 : Vector2) (r : ℚ) : Bool :=
  decide (0 < r ∧ Vector2DistanceSqr v1 v2 < r * r)

/-- The external functions whose values are not rational functions of their
arguments: `cosf`, `sinf`, the constant `PI` and `Vector2Normalize`. -/
structure Libm where
  cosf : ℚ → ℚ
  sinf : ℚ → ℚ
  PI : ℚ
  Vector2Normalize : Vector2 → Vector2

/-- The function `fminf`. -/
def fminf (a b : ℚ) : ℚ := if a < b then a else b

/-- Truncation toward zero of a rational. -/
def truncQ (q : ℚ) : Int := if 0 ≤ q then Int.floor q else Int.ceil q

/-- The function `fmodf x y = x - trunc (x / y) * y` (for `y ≠ 0`). -/
def fmodf (x y : ℚ) : ℚ := x - (truncQ (x / y) : ℚ) * y

/-- `Utils::RandomFloat min max`, where `u` stands for the quotient
`static_cast<float>(rand()) / RAND_MAX`. -/
def RandomFloat (u : ℚ) (min max : ℚ) : ℚ := min + u * (max - min)

/-! ## Components shared by the entities -/

/-- The struct `TransformA`. -/
structure TransformA where
  position : Vector2
  rotation : ℚ
deriving DecidableEq, Repr

/-- The struct `Physics`. -/
structure Physics where
  velocity : Vector2
  rotationSpeed : ℚ
deriving DecidableEq, Repr

/-- The struct `Renderable`; `size` holds the integer value of the enum
`Renderable::Size` (`SMALL = 1`, `MEDIUM = 2`, `LARGE = 4`). -/
structure Renderable where
  size : Int
deriving DecidableEq, Repr

/-- `Renderer::Instance().Width()` after `Init (C_WIDTH, C_HEIGHT, _)`. -/
def C_WIDTH : Int := 1280

/-- `Renderer::Instance().Height()` after `Init (C_WIDTH, C_HEIGHT, _)`. -/
def C_HEIGHT : Int := 720

/-- The constant `Application::MAX_AST`. -/
def MAX_AST : Nat := 150

/-- The constant `Application::C_SPAWN_MIN`. -/
def C_SPAWN_MIN : ℚ := 1 / 2

/-- The constant `Application::C_SPAWN_MAX`. -/
def C_SPAWN_MAX : ℚ := 3

/-! ## Asteroids -/

/-- The data members of class `Asteroid`. -/
structure Asteroid where
  transform : TransformA
  physics : Physics
  render : Renderable
  baseDamage : Int
  hp : Int
  originalSize : Int
deriving DecidableEq, Repr

namespace Asteroid

/-- The constant `Asteroid::SPEED_MIN`. -/
def SPEED_MIN : ℚ := 125

/-- The constant `Asteroid::SPEED_MAX`. -/
def SPEED_MAX : ℚ := 250

/-- The constant `Asteroid::ROT_MIN`. -/
def ROT_MIN : ℚ := 50

/-- The constant `Asteroid::ROT_MAX`. -/
def ROT_MAX : ℚ := 240

/-- The method `Asteroid::GetPosition`. -/
def GetPosition (a : Asteroid) : Vector2 := a.transform.position

/-- The method `Asteroid::GetRadius`: `16.f * (float) render.size`. -/
def GetRadius (a : Asteroid) : ℚ := 16 * (a.render.size : ℚ)

/-- The method `Asteroid::GetDamage`. -/
def GetDamage (a : Asteroid) : Int := a.baseDamage * a.render.size

/-- The method `Asteroid::GetSize`. -/
def GetSize (a : Asteroid) : Int := a.render.size

/-- The method `Asteroid::GetHP`. -/
def GetHP (a : Asteroid) : Int := a.hp

/-- The method `Asteroid::GetOriginalSize`. -/
def GetOriginalSize (a : Asteroid) : Int := a.originalSize

/-- The method `Asteroid::GetMaxHPForSize`. -/
def GetMaxHPForSize (size : Int) : Int :=
  if size = 4 then 200
  else if size = 2 then 150
  else if size = 1 then 75
  else 25

/-- The method `Asteroid::GetSizeForHP`. -/
def GetSizeForHP (a : Asteroid) : Int :=
  if a.hp > 150 then 4
  else if a.hp > 75 then 2
  else 1

/-- The method `Asteroid::Update`: the returned flag is the method's result, the
asteroid is the object after the call. -/
def Update (a : Asteroid) (dt : ℚ) : Bool × Asteroid :=
  let a1 : Asteroid :=
    { a with transform :=
        { position := Vector2Add a.transform.position (Vector2Scale a.physics.velocity dt)
          rotation := a.transform.rotation + a.physics.rotationSpeed * dt } }
  if a1.transform.position.x < -a1.GetRadius
      ∨ a1.transform.position.x > (C_WIDTH : ℚ) + a1.GetRadius
      ∨ a1.transform.position.y < -a1.GetRadius
      ∨ a1.transform.position.y > (C_HEIGHT : ℚ) + a1.GetRadius then
    (false, a1)
  else
    (true, a1)

/-- The method `Asteroid::TakeDamage`: the returned flag is the method's result
(`true` means destroyed), the asteroid is the object after the call. -/
def TakeDamage (a : Asteroid) (dmg : Int) : Bool × Asteroid :=
  let a1 : Asteroid := { a with hp := a.hp - dmg }
  if a1.hp ≤ 0 then
    (true, a1)
  else
    let newSize := a1.GetSizeForHP
    if newSize < a1.render.size ∧ newSize ≥ 1 then
      (false, { a1 with render := { size := newSize } })
    else
      (false, a1)

end Asteroid

/-- The random draws consumed by one asteroid construction: the results of the
calls `GetRandomValue (0, 2)` (shape and size) and `GetRandomValue (0, 3)`
(edge), which raylib keeps within the requested bounds, and, for each call of
`Utils::RandomFloat`, the quotient `rand() / RAND_MAX`. -/
structure SpawnDraws where
  shapeDraw : Fin 3
  sizeDraw : Fin 3
  edgeDraw : Fin 4
  uEdge : ℚ
  uAng : ℚ
  uRad : ℚ
  uSpeed : ℚ
  uRot : ℚ
  uRotation : ℚ
deriving DecidableEq, Repr

namespace Asteroid

/-- The method `Asteroid::init`, run by the constructor `Asteroid (screenW, screenH)`
on an object whose members hold their default initialisers (`baseDamage = 0`). -/
def init (m : Libm) (screenW screenH : Int) (r : SpawnDraws) : Asteroid :=
  let size : Int := ((1 <<< r.sizeDraw.val : Nat) : Int)
  let originalSize : Int := size
  let hp : Int := GetMaxHPForSize size
  let radius : ℚ := 16 * (size : ℚ)
  let position : Vector2 :=
    if r.edgeDraw.val = 0 then
      { x := RandomFloat r.uEdge 0 screenW, y := -radius }
    else if r.edgeDraw.val = 1 then
      { x := (screenW : ℚ) + radius, y := RandomFloat r.uEdge 0 screenH }
    else if r.edgeDraw.val = 2 then
      { x := RandomFloat r.uEdge 0 screenW, y := (screenH : ℚ) + radius }
    else
      { x := -radius, y := RandomFloat r.uEdge 0 screenH }
  let maxOff : ℚ := fminf screenW screenH * (1 / 10)
  let ang : ℚ := RandomFloat r.uAng 0 (2 * m.PI)
  let rad : ℚ := RandomFloat r.uRad 0 maxOff
  let center : Vector2 :=
    { x := (screenW : ℚ) * (1 / 2) + m.cosf ang * rad
      y := (screenH : ℚ) * (1 / 2) + m.sinf ang * rad }
  let dir : Vector2 := m.Vector2Normalize (Vector2Subtract center position)
  { transform := { position := position, rotation := RandomFloat r.uRotation 0 360 }
    physics :=
      { velocity := Vector2Scale dir (RandomFloat r.uSpeed SPEED_MIN SPEED_MAX)
        rotationSpeed := RandomFloat r.uRot ROT_MIN ROT_MAX }
    render := { size := size }
    baseDamage := 0
    hp := hp
    originalSize := originalSize }

end Asteroid

/-- The enum `AsteroidShape`. -/
inductive AsteroidShape where
  | TRIANGLE
  | SQUARE
  | PENTAGON
  | RANDOM
deriving DecidableEq, Repr

/-- The constructors `TriangleAsteroid`, `SquareAsteroid` and `PentagonAsteroid`
selected by `MakeAsteroid`; for `RANDOM` the shape is
`static_cast<AsteroidShape>(3 + GetRandomValue (0, 2))`. -/
def MakeAsteroid (m : Libm) (w h : Int) (shape : AsteroidShape) (r : SpawnDraws) : Asteroid :=
  match shape with
  | .TRIANGLE => { Asteroid.init m w h r with baseDamage := 5 }
  | .SQUARE => { Asteroid.init m w h r with baseDamage := 10 }
  | .PENTAGON => { Asteroid.init m w h r with baseDamage := 15 }
  | .RANDOM =>
    if 3 + r.shapeDraw.val = 3 then { Asteroid.init m w h r with baseDamage := 5 }
    else if 3 + r.shapeDraw.val = 4 then { Asteroid.init m w h r with baseDamage := 10 }
    else { Asteroid.init m w h r with baseDamage := 15 }

/-! ## Projectiles -/

/-- The enum `WeaponType`; `COUNT` is the sentinel that closes the enumeration. -/
inductive WeaponType where
  | LASER
  | BULLET
  | TRIPLE
  | COUNT
deriving DecidableEq, Repr

namespace WeaponType

/-- The conversion `static_cast<int>(wt)`. -/
def toInt : WeaponType → Int
  | LASER => 0
  | BULLET => 1
  | TRIPLE => 2
  | COUNT => 3

/-- The conversion `static_cast<WeaponType>(n)` on the values the program
passes, `0 ≤ n ≤ 3`; the last line stands for the values without an enumerator. -/
def ofInt (n : Int) : WeaponType :=
  if n = 0 then LASER
  else if n = 1 then BULLET
  else if n = 2 then TRIPLE
  else COUNT

end WeaponType

/-- The constant `LASER_DAMAGE`. -/
def LASER_DAMAGE : Int := 20

/-- The constant `BULLET_DAMAGE`. -/
def BULLET_DAMAGE : Int := 40

/-- The constant `TRIPLE_DAMAGE`. -/
def TRIPLE_DAMAGE : Int := 15

/-- The data members of class `Projectile`. -/
structure Projectile where
  transform : TransformA
  physics : Physics
  baseDamage : Int
  type : WeaponType
deriving DecidableEq, Repr

namespace Projectile

/-- The constructor `Projectile (pos, vel, dmg, wt)`. -/
def new (pos vel : Vector2) (dmg : Int) (wt : WeaponType) : Projectile :=
  { transform := { position := pos, rotation := 0 }
    physics := { velocity := vel, rotationSpeed := 0 }
    baseDamage := dmg
    type := wt }

/-- The method `Projectile::Update`: the flag is the method's result (`true`
means that the projectile left the screen), the projectile is the object after
the call. -/
def Update (p : Projectile) (dt : ℚ) : Bool × Projectile :=
  let p1 : Projectile :=
    { p with transform :=
        { p.transform with
          position := Vector2Add p.transform.position (Vector2Scale p.physics.velocity dt) } }
  if p1.transform.position.x < 0
      ∨ p1.transform.position.x > (C_WIDTH : ℚ)
      ∨ p1.transform.position.y < 0
      ∨ p1.transform.position.y > (C_HEIGHT : ℚ) then
    (true, p1)
  else
    (false, p1)

/-- The method `Projectile::GetPosition`. -/
def GetPosition (p : Projectile) : Vector2 := p.transform.position

/-- The method `Projectile::GetRadius`. -/
def GetRadius (p : Projectile) : ℚ :=
  match p.type with
  | .BULLET => 5
  | .LASER => 2
  | .TRIPLE => 2
  | .COUNT => 0

/-- The method `Projectile::GetDamage`. -/
def GetDamage (p : Projectile) : Int := p.baseDamage

end Projectile

/-- The factory `MakeProjectile`. -/
def MakeProjectile (wt : WeaponType) (pos : Vector2) (speed : ℚ) : Projectile :=
  let vel : Vector2 := { x := 0, y := -speed }
  match wt with
  | .LASER => Projectile.new pos vel LASER_DAMAGE wt
  | .BULLET => Projectile.new pos vel BULLET_DAMAGE wt
  | .TRIPLE => Projectile.new pos vel TRIPLE_DAMAGE wt
  | .COUNT => Projectile.new pos vel 1 wt

/-! ## The ship -/

/-- The data members of class `Ship` followed by those of `PlayerShip`;
`textureWidth` is the member `texture.width`. -/
structure Ship where
  transform : TransformA
  hp : Int
  speed : ℚ
  alive : Bool
  fireRateLaser : ℚ
  fireRateBullet : ℚ
  fireRateTriple : ℚ
  spacingLaser : ℚ
  spacingBullet : ℚ
  spacingTriple : ℚ
  textureWidth : Int
  scale : ℚ
  currentTextureIndex : Int
deriving DecidableEq, Repr

/-- The keys read in one frame: `IsKeyDown` for W, S, A, D and SPACE,
`IsKeyPressed` for L, R, ONE to FOUR and TAB. -/
structure Keys where
  keyW : Bool
  keyS : Bool
  keyA : Bool
  keyD : Bool
  keySpace : Bool
  keyL : Bool
  keyR : Bool
  keyOne : Bool
  keyTwo : Bool
  keyThree : Bool
  keyFour : Bool
  keyTab : Bool
deriving DecidableEq, Repr

namespace Ship

/-- The method `PlayerShip::LoadCurrentTexture`; `texWidth i` is the width of
the texture that `LoadTexture` returns for `textureFiles[i]`. -/
def LoadCurrentTexture (s : Ship) (texWidth : Int → Int) : Ship :=
  let w := texWidth s.currentTextureIndex
  { s with textureWidth := w, scale := 80 / (w : ℚ) }

/-- The constructor `PlayerShip (w, h)`: the constructor `Ship (screenW, screenH)`
followed by the choice and the loading of texture 0. -/
def new (screenW screenH : Int) (texWidth : Int → Int) : Ship :=
  let s : Ship :=
    { transform :=
        { position := { x := (screenW : ℚ) * (1 / 2), y := (screenH : ℚ) * (1 / 2) }
          rotation := 0 }
      hp := 100
      speed := 250
      alive := true
      fireRateLaser := 12
      fireRateBullet := 11
      fireRateTriple := 5
      spacingLaser := 40
      spacingBullet := 20
      spacingTriple := 30
      textureWidth := 0
      scale := 0
      currentTextureIndex := 0 }
  s.LoadCurrentTexture texWidth

/-- The method `Ship::TakeDamage`. -/
def TakeDamage (s : Ship) (dmg : Int) : Ship :=
  if !s.alive then s
  else
    let s1 : Ship := { s with hp := s.hp - dmg }
    if s1.hp ≤ 0 then { s1 with alive := false } else s1

/-- The method `Ship::IsAlive`. -/
def IsAlive (s : Ship) : Bool := s.alive

/-- The method `Ship::GetPosition`. -/
def GetPosition (s : Ship) : Vector2 := s.transform.position

/-- The method `PlayerShip::GetRadius`. -/
def GetRadius (s : Ship) : ℚ := ((s.textureWidth : ℚ) * s.scale) * (1 / 2)

/-- The method `Ship::GetHP`. -/
def GetHP (s : Ship) : Int := s.hp

/-- The method `Ship::GetFireRate`. -/
def GetFireRate (s : Ship) (wt : WeaponType) : ℚ :=
  if wt = .LASER then s.fireRateLaser
  else if wt = .BULLET then s.fireRateBullet
  else s.fireRateTriple

/-- The method `Ship::GetSpacing`. -/
def GetSpacing (s : Ship) (wt : WeaponType) : ℚ :=
  if wt = .LASER then s.spacingLaser
  else if wt = .BULLET then s.spacingBullet
  else s.spacingTriple

/-- The assignment `transform.position.y += d`. -/
def moveY (s : Ship) (d : ℚ) : Ship :=
  { s with transform :=
      { s.transform with position := { s.transform.position with y := s.transform.position.y + d } } }

/-- The assignment `transform.position.x += d`. -/
def moveX (s : Ship) (d : ℚ) : Ship :=
  { s with transform :=
      { s.transform with position := { s.transform.position with x := s.transform.position.x + d } } }

/-- The method `PlayerShip::Update`. -/
def Update (s : Ship) (dt : ℚ) (k : Keys) (texWidth : Int → Int) : Ship :=
  let s1 : Ship :=
    if s.alive then
      let a := if k.keyW then s.moveY (-(s.speed * dt)) else s
      let b := if k.keyS then a.moveY (a.speed * dt) else a
      let c := if k.keyA then b.moveX (-(b.speed * dt)) else b
      if k.keyD then c.moveX (c.speed * dt) else c
    else
      s.moveY (s.speed * dt)
  if k.keyL then
    LoadCurrentTexture { s1 with currentTextureIndex := 1 - s1.currentTextureIndex } texWidth
  else
    s1

end Ship

/-! ## The application state and the stages of one frame -/

/-- The variables that `Application::Run` carries from one frame to the next. -/
structure GameState where
  player : Ship
  asteroids : List Asteroid
  projectiles : List Projectile
  currentShape : AsteroidShape
  currentWeapon : WeaponType
  spawnTimer : ℚ
  spawnInterval : ℚ
  shotTimer : ℚ
  score : Int
deriving DecidableEq, Repr

/-- What one frame reads from outside: `GetFrameTime ()`, the keys, the width of
the texture that `LoadTexture` returns for each file, and the random draws of
the restart, of the spawn interval and of the asteroid constructor. -/
structure FrameInput where
  dt : ℚ
  keys : Keys
  texWidth : Int → Int
  uRestart : ℚ
  uSpawn : ℚ
  spawn : SpawnDraws

/-- The state before the first frame (lines 479 to 485 and the constructor
`Application ()`). -/
def initialState (texWidth : Int → Int) (uInterval : ℚ) : GameState :=
  { player := Ship.new C_WIDTH C_HEIGHT texWidth
    asteroids := []
    projectiles := []
    currentShape := .TRIANGLE
    currentWeapon := .LASER
    spawnTimer := 0
    spawnInterval := RandomFloat uInterval C_SPAWN_MIN C_SPAWN_MAX
    shotTimer := 0
    score := 0 }

/-- The head of the loop body: `spawnTimer += dt; player->Update (dt);`. -/
def updateStep (inp : FrameInput) (s : GameState) : GameState :=
  { s with
    spawnTimer := s.spawnTimer + inp.dt
    player := s.player.Update inp.dt inp.keys inp.texWidth }

/-- The restart logic (lines 495 to 502). -/
def restartStep (inp : FrameInput) (s : GameState) : GameState :=
  if !s.player.IsAlive && inp.keys.keyR then
    { s with
      player := Ship.new C_WIDTH C_HEIGHT inp.texWidth
      asteroids := []
      projectiles := []
      spawnTimer := 0
      spawnInterval := RandomFloat inp.uRestart C_SPAWN_MIN C_SPAWN_MAX
      score := 0 }
  else s

/-- The asteroid shape switch (lines 504 to 515). -/
def shapeStep (inp : FrameInput) (s : GameState) : GameState :=
  let s1 := if inp.keys.keyOne then { s with currentShape := .TRIANGLE } else s
  let s2 := if inp.keys.keyTwo then { s1 with currentShape := .SQUARE } else s1
  let s3 := if inp.keys.keyThree then { s2 with currentShape := .PENTAGON } else s2
  if inp.keys.keyFour then { s3 with currentShape := .RANDOM } else s3

/-- The weapon switch (lines 518 to 520). -/
def weaponStep (inp : FrameInput) (s : GameState) : GameState :=
  if inp.keys.keyTab then
    { s with currentWeapon :=
        WeaponType.ofInt ((s.currentWeapon.toInt + 1) % WeaponType.COUNT.toInt) }
  else s

/-- The projectiles that one firing event appends (lines 530 to 548). -/
def fireEvent (m : Libm) (player : Ship) (currentWeapon : WeaponType) (projSpeed : ℚ) :
    List Projectile :=
  let p : Vector2 := { player.GetPosition with y := player.GetPosition.y - player.GetRadius }
  if currentWeapon = .TRIPLE then
    let angleOffsets : List ℚ := [-15 * (m.PI / 180), 0, 15 * (m.PI / 180)]
    angleOffsets.map fun angleOffset =>
      let dir : Vector2 := { x := 0, y := -1 }
      let cosA := m.cosf angleOffset
      let sinA := m.sinf angleOffset
      let rotatedDir : Vector2 :=
        { x := dir.x * cosA - dir.y * sinA, y := dir.x * sinA + dir.y * cosA }
      let vel := Vector2Scale rotatedDir projSpeed
      Projectile.new p vel TRIPLE_DAMAGE .TRIPLE
  else
    [MakeProjectile currentWeapon p projSpeed]

/-- The catch-up loop `while (shotTimer >= interval)` (lines 529 to 550), run
with `fuel` iterations at most; `none` when the fuel does not suffice. -/
def fireLoop (m : Libm) (player : Ship) (currentWeapon : WeaponType) (interval projSpeed : ℚ) :
    Nat → ℚ → List Projectile → Option (ℚ × List Projectile)
  | 0, shotTimer, projectiles =>
    if shotTimer ≥ interval then none else some (shotTimer, projectiles)
  | fuel + 1, shotTimer, projectiles =>
    if shotTimer ≥ interval then
      fireLoop m player currentWeapon interval projSpeed fuel (shotTimer - interval)
        (projectiles ++ fireEvent m player currentWeapon projSpeed)
    else some (shotTimer, projectiles)

/-- The shooting block (lines 523 to 559) on the variables it reads and writes:
the result is the new `shotTimer` and the new projectile collection. -/
def shooting (m : Libm) (fuel : Nat) (player : Ship) (currentWeapon : WeaponType)
    (keySpace : Bool) (dt : ℚ) (shotTimer : ℚ) (projectiles : List Projectile) :
    Option (ℚ × List Projectile) :=
  if player.IsAlive && keySpace then
    let shotTimer1 := shotTimer + dt
    let interval := 1 / player.GetFireRate currentWeapon
    let projSpeed := player.GetSpacing currentWeapon * player.GetFireRate currentWeapon
    fireLoop m player currentWeapon interval projSpeed fuel shotTimer1 projectiles
  else
    let maxInterval := 1 / player.GetFireRate currentWeapon
    if shotTimer > maxInterval then
      some (fmodf shotTimer maxInterval, projectiles)
    else
      some (shotTimer, projectiles)

/-- The shooting block as a stage of the frame. -/
def shootingStep (m : Libm) (fuel : Nat) (inp : FrameInput) (s : GameState) :
    Option GameState :=
  match shooting m fuel s.player s.currentWeapon inp.keys.keySpace inp.dt
      s.shotTimer s.projectiles with
  | none => none
  | some (shotTimer, projectiles) =>
    some { s with shotTimer := shotTimer, projectiles := projectiles }

/-- The asteroid spawn (lines 562 to 566). -/
def spawnStep (m : Libm) (inp : FrameInput) (s : GameState) : GameState :=
  if s.spawnTimer ≥ s.spawnInterval ∧ s.asteroids.length < MAX_AST then
    { s with
      asteroids := s.asteroids ++ [MakeAsteroid m C_WIDTH C_HEIGHT s.currentShape inp.spawn]
      spawnTimer := 0
      spawnInterval := RandomFloat inp.uSpawn C_SPAWN_MIN C_SPAWN_MAX }
  else s

/-- The projectile update (lines 569 to 575): `std::remove_if` calls `Update` on
every projectile in order and drops those for which it returns `true`. -/
def updateProjectiles (dt : ℚ) : List Projectile → List Projectile
  | [] => []
  | p :: rest =>
    if (p.Update dt).1 then updateProjectiles dt rest
    else (p.Update dt).2 :: updateProjectiles dt rest

/-- The projectile update as a stage of the frame. -/
def projectileUpdateStep (inp : FrameInput) (s : GameState) : GameState :=
  { s with projectiles := updateProjectiles inp.dt s.projectiles }

/-- The body of `if (dist < ...)` up to the erasure of the asteroid (lines 584
to 593): the asteroid takes the damage; a destroyed asteroid is scored by its
original size and erased (`none`), a surviving one is kept. -/
def hitAsteroid (dmg : Int) (a : Asteroid) (score : Int) : Option Asteroid × Int :=
  if (a.TakeDamage dmg).1 then
    let origSize := (a.TakeDamage dmg).2.GetOriginalSize
    if origSize = 4 then (none, score + 10)
    else if origSize = 2 then (none, score + 5)
    else if origSize = 1 then (none, score + 2)
    else (none, score)
  else
    (some (a.TakeDamage dmg).2, score)

/-- The collision test of line 583 between a projectile and an asteroid. -/
def projectileHits (p : Projectile) (a : Asteroid) : Bool :=
  distanceLt p.GetPosition a.GetPosition (p.GetRadius + a.GetRadius)

/-- The inner loop over the asteroids for one projectile (lines 581 to 598):
`none` when the loop ends without a hit (`removed` stays `false`), otherwise the
asteroid collection and the score after the hit. -/
def scanAsteroids (p : Projectile) : List Asteroid → Int → Option (List Asteroid × Int)
  | [], _ => none
  | a :: rest, score =>
    if projectileHits p a then
      match hitAsteroid p.GetDamage a score with
      | (none, score1) => some (rest, score1)
      | (some a1, score1) => some (a1 :: rest, score1)
    else
      match scanAsteroids p rest score with
      | none => none
      | some (rest1, score1) => some (a :: rest1, score1)

/-- The projectile-asteroid collision pass (lines 578 to 602): the projectiles
kept, the asteroids kept and the score. -/
def projectileAsteroidPass :
    List Projectile → List Asteroid → Int → List Projectile × List Asteroid × Int
  | [], asteroids, score => ([], asteroids, score)
  | p :: rest, asteroids, score =>
    match scanAsteroids p asteroids score with
    | none =>
      let r := projectileAsteroidPass rest asteroids score
      (p :: r.1, r.2.1, r.2.2)
    | some (asteroids1, score1) => projectileAsteroidPass rest asteroids1 score1

/-- The projectile-asteroid pass as a stage of the frame. -/
def projectileAsteroidStep (s : GameState) : GameState :=
  let r := projectileAsteroidPass s.projectiles s.asteroids s.score
  { s with projectiles := r.1, asteroids := r.2.1, score := r.2.2 }

/-- The asteroid-ship collision pass (lines 606 to 622): `std::remove_if` calls the
lambda `remove_collision` on every asteroid in order; the result is the
asteroids kept and the ship. -/
def asteroidShipPass (dt : ℚ) : List Asteroid → Ship → List Asteroid × Ship
  | [], player => ([], player)
  | a :: rest, player =>
    if player.IsAlive
        ∧ distanceLt player.GetPosition a.GetPosition (player.GetRadius + a.GetRadius) then
      asteroidShipPass dt rest (player.TakeDamage a.GetDamage)
    else
      let r := asteroidShipPass dt rest player
      if !(a.Update dt).1 then r else ((a.Update dt).2 :: r.1, r.2)

/-- The asteroid-ship pass as a stage of the frame. -/
def asteroidShipStep (inp : FrameInput) (s : GameState) : GameState :=
  let r := asteroidShipPass inp.dt s.asteroids s.player
  { s with asteroids := r.1, player := r.2 }

/-- The loop body up to the weapon switch (lines 488 to 520): the state in which
the shooting block runs, after `player->Update`, the restart logic and the two
switches. -/
def beforeShooting (inp : FrameInput) (s : GameState) : GameState :=
  weaponStep inp (shapeStep inp (restartStep inp (updateStep inp s)))

/-- The loop body up to the projectile update (lines 488 to 575): the state on
which the two collision passes run. -/
def beforeCollisions (m : Libm) (fuel : Nat) (inp : FrameInput) (s : GameState) :
    Option GameState :=
  match shootingStep m fuel inp (beforeShooting inp s) with
  | none => none
  | some s1 => some (projectileUpdateStep inp (spawnStep m inp s1))

/-- One iteration of the loop of `Application::Run`, rendering left out. -/
def frameStep (m : Libm) (fuel : Nat) (inp : FrameInput) (s : GameState) : Option GameState :=
  match beforeCollisions m fuel inp s with
  | none => none
  | some s1 => some (asteroidShipStep inp (projectileAsteroidStep s1))

/-- The states that `Application::Run` can be in at the head of its loop. -/
inductive Reachable (m : Libm) : GameState → Prop where
  | start (texWidth : Int → Int) (uInterval : ℚ) : Reachable m (initialState texWidth uInterval)
  | frame (fuel : Nat) (inp : FrameInput) (s s1 : GameState) :
      Reachable m s → frameStep m fuel inp s = some s1 → Reachable m s1

/-! ## Sequences of operations and sample values used by the statements -/

/-- An operation that the program applies to an asteroid object. -/
inductive AsteroidOp where
  | update (dt : ℚ)
  | takeDamage (dmg : Int)
deriving DecidableEq, Repr

/-- The asteroid object after one operation (the returned flag is dropped). -/
def AsteroidOp.apply (op : AsteroidOp) (a : Asteroid) : Asteroid :=
  match op with
  | .update dt => (a.Update dt).2
  | .takeDamage dmg => (a.TakeDamage dmg).2

/-- The asteroid object after a sequence of operations, first operation first. -/
def applyOps (a : Asteroid) (ops : List AsteroidOp) : Asteroid :=
  ops.foldl (fun b op => op.apply b) a

/-- The states of the asteroid object observed after each operation of a
sequence, in order. -/
def opTrace : Asteroid → List AsteroidOp → List Asteroid
  | _, [] => []
  | a, op :: ops => op.apply a :: opTrace (op.apply a) ops

/-- A stand-in for the external functions, for evaluating the model on concrete
inputs: the rational parametrisation of the unit circle for `cosf` and `sinf`
(so that `cosf a ^ 2 + sinf a ^ 2 = 1` holds exactly), `22 / 7` for `PI` and
the identity for the normalisation. -/
def sampleLibm : Libm :=
  { cosf := fun a => (1 - a * a) / (1 + a * a)
    sinf := fun a => 2 * a / (1 + a * a)
    PI := 22 / 7
    Vector2Normalize := fun v => v }

/-- Sample draws: a large triangle entering from the top edge. -/
def sampleDraws : SpawnDraws :=
  { shapeDraw := 0, sizeDraw := 2, edgeDraw := 0, uEdge := 1 / 2, uAng := 0, uRad := 0,
    uSpeed := 0, uRot := 0, uRotation := 0 }

/-- A sample asteroid: a medium square at the origin with 100 hit points. -/
def sampleAsteroid : Asteroid :=
  { transform := { position := { x := 0, y := 0 }, rotation := 0 }
    physics := { velocity := { x := 0, y := 0 }, rotationSpeed := 0 }
    render := { size := 2 }
    baseDamage := 10
    hp := 100
    originalSize := 2 }

/-- The hits that successive projectiles land on one asteroid, each through the
body `hitAsteroid` of the collision pass, up to the hit that destroys it: once
the asteroid is erased (`none`) no later projectile can reach it. -/
def hitSequence : Asteroid → List Int → Int → Option Asteroid × Int
  | a, [], score => (some a, score)
  | a, dmg :: rest, score =>
    match hitAsteroid dmg a score with
    | (none, score1) => (none, score1)
    | (some a1, score1) => hitSequence a1 rest score1

/-- A ship as built at start-up, with textures 80 pixels wide. -/
def sampleShip : Ship := Ship.new C_WIDTH C_HEIGHT (fun _ => 80)

/-- The index, in the current asteroid collection, at which the inner loop of the
projectile-asteroid pass stops for projectile `p`: the first asteroid in
collection order that passes the test of line 583 (`none` when the loop runs to
the end). -/
def firstHit (p : Projectile) : List Asteroid → Option Nat
  | [] => none
  | a :: rest =>
    if projectileHits p a then some 0
    else
      match firstHit p rest with
      | none => none
      | some k => some (k + 1)

/-- The asteroid collection after the inner loop has run for projectile `p`. -/
def asteroidsAfter (p : Projectile) (asteroids : List Asteroid) : List Asteroid :=
  match scanAsteroids p asteroids 0 with
  | none => asteroids
  | some r => r.1

/-- A sample projectile: a laser shot at the origin flying straight up. -/
def sampleProjectile : Projectile :=
  MakeProjectile .LASER { x := 0, y := 0 } 480

/-- A second sample asteroid: a small triangle at `(10, 0)` with 75 hit points. -/
def sampleAsteroid2 : Asteroid :=
  { transform := { position := { x := 10, y := 0 }, rotation := 0 }
    physics := { velocity := { x := 0, y := 0 }, rotationSpeed := 0 }
    render := { size := 1 }
    baseDamage := 5
    hp := 75
    originalSize := 1 }

/-- The ship after a sequence of `Ship::TakeDamage` calls, first call first. -/
def Ship.takeDamages (s : Ship) (dmgs : List Int) : Ship :=
  dmgs.foldl (fun t dmg => t.TakeDamage dmg) s

/-- A sample game state: the ship destroyed by a hit of 100, one asteroid, one
projectile, score 7, spawn timer 1. -/
def sampleDeadState : GameState :=
  { player := sampleShip.TakeDamage 100
    asteroids := [sampleAsteroid]
    projectiles := [sampleProjectile]
    currentShape := .SQUARE
    currentWeapon := .BULLET
    spawnTimer := 1
    spawnInterval := 2
    shotTimer := 0
    score := 7 }

/-- A sample frame input: a frame of 1/60 s with only the key R pressed. -/
def sampleRestartInput : FrameInput :=
  { dt := 1 / 60
    keys :=
      { keyW := false, keyS := false, keyA := false, keyD := false, keySpace := false,
        keyL := false, keyR := true, keyOne := false, keyTwo := false, keyThree := false,
        keyFour := false, keyTab := false }
    texWidth := fun _ => 80
    uRestart := 1 / 2
    uSpawn := 1 / 2
    spawn := sampleDraws }

/-- A sample frame input: a frame of 1/60 s with no key pressed. -/
def sampleIdleInput : FrameInput :=
  { dt := 1 / 60
    keys :=
      { keyW := false, keyS := false, keyA := false, keyD := false, keySpace := false,
        keyL := false, keyR := false, keyOne := false, keyTwo := false, keyThree := false,
        keyFour := false, keyTab := false }
    texWidth := fun _ => 80
    uRestart := 1 / 2
    uSpawn := 1 / 2
    spawn := sampleDraws }

/-- A fifth sample asteroid: a medium square with 100 hit points at the screen
centre, where the start-up ship is. -/
def sampleAsteroid5 : Asteroid :=
  { sampleAsteroid with transform := { position := { x := 640, y := 360 }, rotation := 0 } }

/-- A sample frame input: a frame of 1/60 s with only the key Tab pressed. -/
def sampleTabInput : FrameInput :=
  { sampleIdleInput with keys := { sampleIdleInput.keys with keyTab := true } }

/-- A sample frame input: a frame of 1/12 s with the keys Space and Tab pressed. -/
def sampleFireTabInput : FrameInput :=
  { sampleIdleInput with
    dt := 1 / 12
    keys := { sampleIdleInput.keys with keySpace := true, keyTab := true } }

/-- The state after three frames from the initial state: fire held for 1/12 s
while the weapon is switched to BULLET, then two frames of 1/60 s that each
switch the weapon, back to LASER. -/
def sampleTimerState : GameState :=
  { initialState (fun _ => 80) (1 / 2) with spawnTimer := 7 / 60, shotTimer := 1 / 12 }

/-- The state after the first of the three frames that lead to
`sampleTimerState`: BULLET selected, shot timer 1/12. -/
def sampleTimerState1 : GameState :=
  { initialState (fun _ => 80) (1 / 2) with
    spawnTimer := 1 / 12, currentWeapon := .BULLET, shotTimer := 1 / 12 }

/-- The state after the second of the three frames that lead to
`sampleTimerState`: TRIPLE selected, shot timer 1/12. -/
def sampleTimerState2 : GameState :=
  { initialState (fun _ => 80) (1 / 2) with
    spawnTimer := 1 / 10, currentWeapon := .TRIPLE, shotTimer := 1 / 12 }

/-- A sample frame input: a frame with frame delta 0 and only the key Space
held. -/
def sampleFireInput : FrameInput :=
  { sampleIdleInput with dt := 0, keys := { sampleIdleInput.keys with keySpace := true } }

/-! ## Theorems -/

/-! ### C1: the contract of `Asteroid::TakeDamage` -/

theorem Asteroid.TakeDamage_fst (a : Asteroid) (dmg : Int) :
    (a.TakeDamage dmg).1 = decide (a.hp - dmg ≤ 0) := by
  unfold Asteroid.TakeDamage
  by_cases h : a.hp - dmg ≤ 0
  · simp [h]
  · simp only [h, if_false, decide_False]
    split <;> rfl

theorem Asteroid.TakeDamage_hp (a : Asteroid) (dmg : Int) :
    (a.TakeDamage dmg).2.hp = a.hp - dmg := by
  unfold Asteroid.TakeDamage
  by_cases h : a.hp - dmg ≤ 0
  · simp [h]
  · simp only [h, if_false]
    split <;> rfl

theorem Asteroid.TakeDamage_size_le (a : Asteroid) (dmg : Int) :
    (a.TakeDamage dmg).2.render.size ≤ a.render.size := by
  unfold Asteroid.TakeDamage
  by_cases h : a.hp - dmg ≤ 0
  · simp [h]
  · simp only [h, if_false]
    split
    · rename_i h2
      exact le_of_lt h2.1
    · exact le_refl _

/-- C1, as stated, fails: with damage 0 on a medium asteroid of 100 hit points
`TakeDamage` returns `false` and the hit points are not strictly smaller. -/
theorem C1_counterexample :
    ¬ (((sampleAsteroid.TakeDamage 0).1 = true ↔ sampleAsteroid.hp - 0 ≤ 0)
        ∧ ((sampleAsteroid.TakeDamage 0).1 = false →
            (sampleAsteroid.TakeDamage 0).2.hp < sampleAsteroid.hp
              ∧ (sampleAsteroid.TakeDamage 0).2.render.size ≤ sampleAsteroid.render.size)) := by
  decide

/-- C1, amended: for every asteroid state and every damage amount, `TakeDamage`
returns `true` exactly when the old hit points minus the damage are at most 0,
the new hit points are the old ones minus the damage, the size tier does not
grow, and when the damage is positive and the result is `false` the new hit
points are strictly smaller than the old ones. -/
theorem C1_TakeDamage_contract (a : Asteroid) (dmg : Int) :
    ((a.TakeDamage dmg).1 = true ↔ a.hp - dmg ≤ 0)
      ∧ (a.TakeDamage dmg).2.hp = a.hp - dmg
      ∧ (a.TakeDamage dmg).2.render.size ≤ a.render.size
      ∧ (0 < dmg → (a.TakeDamage dmg).1 = false → (a.TakeDamage dmg).2.hp < a.hp) := by
  refine ⟨?_, Asteroid.TakeDamage_hp a dmg, Asteroid.TakeDamage_size_le a dmg, ?_⟩
  · rw [Asteroid.TakeDamage_fst]; simp
  · intro hd _
    rw [Asteroid.TakeDamage_hp]; omega

/-- C1, amended, at a medium asteroid of 100 hit points hit for 40. -/
theorem C1_TakeDamage_contract_witness :
    (sampleAsteroid.TakeDamage 40).1 = false ∧ (sampleAsteroid.TakeDamage 40).2.hp < sampleAsteroid.hp :=
  ⟨by decide, (C1_TakeDamage_contract sampleAsteroid 40).2.2.2 (by decide) (by decide)⟩

/-! ### C2: the size tier stays in {1, 2, 4} and the radius is 16 times the tier -/

/-- The size tier is one of the three enumerators of `Renderable::Size`. -/
theorem Asteroid.init_size (m : Libm) (w h : Int) (r : SpawnDraws) :
    (Asteroid.init m w h r).render.size = 1 ∨ (Asteroid.init m w h r).render.size = 2
      ∨ (Asteroid.init m w h r).render.size = 4 := by
  have hsd : r.sizeDraw.val < 3 := r.sizeDraw.isLt
  have hcases : r.sizeDraw.val = 0 ∨ r.sizeDraw.val = 1 ∨ r.sizeDraw.val = 2 := by omega
  rcases hcases with h0 | h1 | h2
  · left; simp [Asteroid.init, h0]
  · right; left; simp [Asteroid.init, h1]
  · right; right; simp [Asteroid.init, h2]

theorem MakeAsteroid_render (m : Libm) (w h : Int) (shape : AsteroidShape) (r : SpawnDraws) :
    (MakeAsteroid m w h shape r).render = (Asteroid.init m w h r).render := by
  unfold MakeAsteroid
  cases shape
  · rfl
  · rfl
  · rfl
  · dsimp only
    split
    · rfl
    · split <;> rfl

theorem Asteroid.Update_render (a : Asteroid) (dt : ℚ) :
    (a.Update dt).2.render = a.render := by
  unfold Asteroid.Update
  dsimp only
  split <;> rfl

theorem Asteroid.TakeDamage_size_mem (a : Asteroid) (dmg : Int)
    (ha : a.render.size = 1 ∨ a.render.size = 2 ∨ a.render.size = 4) :
    (a.TakeDamage dmg).2.render.size = 1 ∨ (a.TakeDamage dmg).2.render.size = 2
      ∨ (a.TakeDamage dmg).2.render.size = 4 := by
  unfold Asteroid.TakeDamage
  by_cases h : a.hp - dmg ≤ 0
  · simpa [h] using ha
  · simp only [h, if_false]
    split
    · simp only [Asteroid.GetSizeForHP]
      split
      · right; right; rfl
      · split
        · right; left; rfl
        · left; rfl
    · exact ha

theorem AsteroidOp.apply_size_mem (op : AsteroidOp) (a : Asteroid)
    (ha : a.render.size = 1 ∨ a.render.size = 2 ∨ a.render.size = 4) :
    (op.apply a).render.size = 1 ∨ (op.apply a).render.size = 2
      ∨ (op.apply a).render.size = 4 := by
  cases op with
  | update dt => simpa [AsteroidOp.apply, Asteroid.Update_render] using ha
  | takeDamage dmg => exact Asteroid.TakeDamage_size_mem a dmg ha

theorem applyOps_size_mem (ops : List AsteroidOp) (a : Asteroid)
    (ha : a.render.size = 1 ∨ a.render.size = 2 ∨ a.render.size = 4) :
    (applyOps a ops).render.size = 1 ∨ (applyOps a ops).render.size = 2
      ∨ (applyOps a ops).render.size = 4 := by
  induction ops generalizing a with
  | nil => exact ha
  | cons op ops ih => exact ih (op.apply a) (AsteroidOp.apply_size_mem op a ha)

/-- C2: an asteroid built by `init` (directly, or through `MakeAsteroid` for any
shape), for each of the three size draws, and then subjected to any sequence of
`Update` and `TakeDamage` calls has a size tier among 1, 2, 4 and a radius equal
to 16 times the size tier. -/
theorem C2_size_tier_invariant (m : Libm) (w h : Int) (shape : AsteroidShape) (r : SpawnDraws)
    (ops : List AsteroidOp) :
    (((applyOps (Asteroid.init m w h r) ops).render.size = 1
        ∨ (applyOps (Asteroid.init m w h r) ops).render.size = 2
        ∨ (applyOps (Asteroid.init m w h r) ops).render.size = 4)
      ∧ (applyOps (Asteroid.init m w h r) ops).GetRadius
          = 16 * ((applyOps (Asteroid.init m w h r) ops).GetSize : ℚ))
    ∧ (((applyOps (MakeAsteroid m w h shape r) ops).render.size = 1
        ∨ (applyOps (MakeAsteroid m w h shape r) ops).render.size = 2
        ∨ (applyOps (MakeAsteroid m w h shape r) ops).render.size = 4)
      ∧ (applyOps (MakeAsteroid m w h shape r) ops).GetRadius
          = 16 * ((applyOps (MakeAsteroid m w h shape r) ops).GetSize : ℚ)) := by
  refine ⟨⟨applyOps_size_mem ops _ (Asteroid.init_size m w h r), rfl⟩,
    ⟨applyOps_size_mem ops _ ?_, rfl⟩⟩
  rw [MakeAsteroid_render]
  exact Asteroid.init_size m w h r

/-! ### C3: the size tier never grows -/

theorem AsteroidOp.apply_size_le (op : AsteroidOp) (a : Asteroid) :
    (op.apply a).render.size ≤ a.render.size := by
  cases op with
  | update dt => simp [AsteroidOp.apply, Asteroid.Update_render]
  | takeDamage dmg => exact Asteroid.TakeDamage_size_le a dmg

/-- C3: for every asteroid and every finite sequence of `Update` and `TakeDamage`
operations, the size tiers observed at the start and after each operation form
a non-increasing sequence, and the tier after the whole sequence is at most the
tier at the start. -/
theorem C3_size_tier_monotone (a : Asteroid) (ops : List AsteroidOp) :
    List.Chain (fun x y : Asteroid => y.render.size ≤ x.render.size) a (opTrace a ops)
      ∧ (applyOps a ops).render.size ≤ a.render.size := by
  constructor
  · induction ops generalizing a with
    | nil => exact List.Chain.nil
    | cons op ops ih => exact List.Chain.cons (AsteroidOp.apply_size_le op a) (ih (op.apply a))
  · induction ops generalizing a with
    | nil => exact le_refl _
    | cons op ops ih => exact le_trans (ih (op.apply a)) (AsteroidOp.apply_size_le op a)

/-! ### C4: the score of a kill is fixed by the size tier at spawn -/

theorem Asteroid.TakeDamage_originalSize (a : Asteroid) (dmg : Int) :
    (a.TakeDamage dmg).2.originalSize = a.originalSize := by
  unfold Asteroid.TakeDamage
  by_cases h : a.hp - dmg ≤ 0
  · simp [h]
  · simp only [h, if_false]
    split <;> rfl

theorem hitAsteroid_some (dmg : Int) (a a1 : Asteroid) (score score1 : Int)
    (h : hitAsteroid dmg a score = (some a1, score1)) :
    a1 = (a.TakeDamage dmg).2 ∧ score1 = score ∧ (a.TakeDamage dmg).1 = false := by
  unfold hitAsteroid at h
  by_cases hd : (a.TakeDamage dmg).1 = true
  · rw [if_pos hd] at h
    dsimp only at h
    split at h
    · simp at h
    · split at h
      · simp at h
      · split at h <;> simp at h
  · rw [if_neg hd] at h
    simp only [Prod.mk.injEq, Option.some.injEq] at h
    exact ⟨h.1.symm, h.2.symm, by simpa using hd⟩

theorem hitAsteroid_none (dmg : Int) (a : Asteroid) (score score1 : Int)
    (h : hitAsteroid dmg a score = (none, score1)) :
    (a.TakeDamage dmg).1 = true
      ∧ score1 = (if a.originalSize = 4 then score + 10
          else if a.originalSize = 2 then score + 5
          else if a.originalSize = 1 then score + 2 else score) := by
  unfold hitAsteroid at h
  by_cases hd : (a.TakeDamage dmg).1 = true
  · refine ⟨hd, ?_⟩
    rw [if_pos hd] at h
    simp only [Asteroid.GetOriginalSize, Asteroid.TakeDamage_originalSize] at h
    split at h
    · rename_i h4
      simp only [Prod.mk.injEq, true_and] at h
      simp [h4, h]
    · rename_i h4
      split at h
      · rename_i h2
        simp only [Prod.mk.injEq, true_and] at h
        simp [h4, h2, h]
      · rename_i h2
        split at h
        · rename_i h1
          simp only [Prod.mk.injEq, true_and] at h
          simp [h4, h2, h1, h]
        · rename_i h1
          simp only [Prod.mk.injEq, true_and] at h
          simp [h4, h2, h1, h]
  · rw [if_neg hd] at h
    simp at h

theorem hitSequence_score (dmgs : List Int) (a : Asteroid) (score : Int) :
    ((hitSequence a dmgs score).1 = none →
        (hitSequence a dmgs score).2 = (if a.originalSize = 4 then score + 10
          else if a.originalSize = 2 then score + 5
          else if a.originalSize = 1 then score + 2 else score))
      ∧ ((hitSequence a dmgs score).1 ≠ none → (hitSequence a dmgs score).2 = score) := by
  induction dmgs generalizing a score with
  | nil => simp [hitSequence]
  | cons dmg rest ih =>
    unfold hitSequence
    rcases hh : hitAsteroid dmg a score with ⟨_ | a1, score1⟩
    · have := hitAsteroid_none dmg a score score1 hh
      simp [this.2]
    · obtain ⟨ha1, hs1, _⟩ := hitAsteroid_some dmg a a1 score score1 hh
      have horig : a1.originalSize = a.originalSize := by
        rw [ha1]; exact Asteroid.TakeDamage_originalSize a dmg
      subst hs1
      have := ih a1 score1
      simp only [horig] at this
      simpa using this

theorem Asteroid.init_originalSize (m : Libm) (w h : Int) (r : SpawnDraws) :
    (Asteroid.init m w h r).originalSize = (Asteroid.init m w h r).render.size := rfl

theorem MakeAsteroid_originalSize (m : Libm) (w h : Int) (shape : AsteroidShape)
    (r : SpawnDraws) :
    (MakeAsteroid m w h shape r).originalSize = (Asteroid.init m w h r).render.size := by
  unfold MakeAsteroid
  cases shape
  · rfl
  · rfl
  · rfl
  · dsimp only
    split
    · rfl
    · split <;> rfl

/-- C4: for an asteroid spawned by `MakeAsteroid` (any shape, any draws), with
size tier `t` at spawn, and any sequence of projectile hits: if the sequence
ends with the destruction of the asteroid the score has grown by exactly 10 if
`t = 4`, 5 if `t = 2` and 2 if `t = 1`, whatever the number of hits and the tier
at the time of the kill; as long as the asteroid survives the score is
unchanged. -/
theorem C4_score_by_original_tier (m : Libm) (w h : Int) (shape : AsteroidShape)
    (r : SpawnDraws) (dmgs : List Int) (score : Int) :
    ((MakeAsteroid m w h shape r).render.size = 1 ∨ (MakeAsteroid m w h shape r).render.size = 2
        ∨ (MakeAsteroid m w h shape r).render.size = 4)
      ∧ ((hitSequence (MakeAsteroid m w h shape r) dmgs score).1 = none →
          (hitSequence (MakeAsteroid m w h shape r) dmgs score).2
            = score + (if (MakeAsteroid m w h shape r).render.size = 4 then 10
                else if (MakeAsteroid m w h shape r).render.size = 2 then 5 else 2))
      ∧ ((hitSequence (MakeAsteroid m w h shape r) dmgs score).1 ≠ none →
          (hitSequence (MakeAsteroid m w h shape r) dmgs score).2 = score) := by
  have hsz := Asteroid.init_size m w h r
  have hr := MakeAsteroid_render m w h shape r
  have ho := MakeAsteroid_originalSize m w h shape r
  have hseq := hitSequence_score dmgs (MakeAsteroid m w h shape r) score
  rw [hr]
  refine ⟨hsz, ?_, hseq.2⟩
  intro hnone
  rw [hseq.1 hnone, ho]
  rcases hsz with h1 | h2 | h4
  · simp [h1]
  · simp [h2]
  · simp [h4]

/-- C4 at a large triangle (200 hit points) destroyed by the fifth bullet of
40: the score goes from 0 to 10, and after four bullets it is still 0. -/
theorem C4_score_by_original_tier_witness :
    (hitSequence (MakeAsteroid sampleLibm C_WIDTH C_HEIGHT .TRIANGLE sampleDraws)
        [40, 40, 40, 40, 40] 0).2 = 0 + 10
      ∧ (hitSequence (MakeAsteroid sampleLibm C_WIDTH C_HEIGHT .TRIANGLE sampleDraws)
        [40, 40, 40, 40] 0).2 = 0 :=
  ⟨by
      have h := (C4_score_by_original_tier sampleLibm C_WIDTH C_HEIGHT .TRIANGLE sampleDraws
        [40, 40, 40, 40, 40] 0).2.1 (by decide)
      rw [h]; decide,
    (C4_score_by_original_tier sampleLibm C_WIDTH C_HEIGHT .TRIANGLE sampleDraws
        [40, 40, 40, 40] 0).2.2 (by decide)⟩

/-! ### C5: the weapon cadence in exact arithmetic -/

theorem hitAsteroid_fst (dmg : Int) (a : Asteroid) (score : Int) :
    (hitAsteroid dmg a score).1
      = if (a.TakeDamage dmg).1 then none else some (a.TakeDamage dmg).2 := by
  unfold hitAsteroid
  by_cases hd : (a.TakeDamage dmg).1 = true
  · simp only [hd, if_true]
    split
    · rfl
    · split
      · rfl
      · split <;> rfl
  · simp [hd]

theorem firstHit_none (p : Projectile) (asteroids : List Asteroid) (score : Int)
    (h : firstHit p asteroids = none) : scanAsteroids p asteroids score = none := by
  induction asteroids with
  | nil => rfl
  | cons a rest ih =>
    unfold firstHit at h
    by_cases hh : projectileHits p a = true
    · simp [hh] at h
    · simp only [hh] at h
      cases hr : firstHit p rest with
      | none => simp [scanAsteroids, hh, ih hr]
      | some k => simp [hr] at h

theorem firstHit_some (p : Projectile) (asteroids : List Asteroid) (score : Int) (k : Nat)
    (h : firstHit p asteroids = some k) :
    ∃ a, asteroids[k]? = some a ∧ projectileHits p a = true
      ∧ scanAsteroids p asteroids score
          = some (if (a.TakeDamage p.GetDamage).1 then asteroids.eraseIdx k
                  else asteroids.set k (a.TakeDamage p.GetDamage).2,
                (hitAsteroid p.GetDamage a score).2) := by
  induction asteroids generalizing k with
  | nil => simp [firstHit] at h
  | cons a rest ih =>
    unfold firstHit at h
    by_cases hh : projectileHits p a = true
    · simp only [hh, if_true, Option.some.injEq] at h
      subst h
      refine ⟨a, by simp, hh, ?_⟩
      unfold scanAsteroids
      simp only [hh, if_true]
      have hf := hitAsteroid_fst p.GetDamage a score
      rcases hres : hitAsteroid p.GetDamage a score with ⟨_ | a1, score1⟩
      · rw [hres] at hf
        by_cases hd : (a.TakeDamage p.GetDamage).1 = true
        · simp [hd]
        · simp [hd] at hf
      · rw [hres] at hf
        by_cases hd : (a.TakeDamage p.GetDamage).1 = true
        · simp [hd] at hf
        · have hd1 : (a.TakeDamage p.GetDamage).1 = false := by simpa using hd
          simp only [hd1, Bool.false_eq_true, if_false, Option.some.injEq] at hf
          simp [hd1, hf]
    · have hh1 : projectileHits p a = false := by simpa using hh
      simp only [hh1, Bool.false_eq_true, if_false] at h
      cases hr : firstHit p rest with
      | none => simp [hr] at h
      | some k1 =>
        simp only [hr, Option.some.injEq] at h
        subst h
        obtain ⟨b, hb, hbh, hscan⟩ := ih k1 hr
        refine ⟨b, by simpa using hb, hbh, ?_⟩
        unfold scanAsteroids
        simp only [hh, hscan]
        by_cases hd : (b.TakeDamage p.GetDamage).1 = true
        · simp [hd]
        · simp [hd]

theorem firstHit_of_no_hit (p : Projectile) (asteroids : List Asteroid)
    (h : ∀ a ∈ asteroids, projectileHits p a = false) : firstHit p asteroids = none := by
  induction asteroids with
  | nil => rfl
  | cons a rest ih =>
    unfold firstHit
    have ha : projectileHits p a = false := h a (List.mem_cons_self _ _)
    have hr := ih (fun b hb => h b (List.mem_cons_of_mem _ hb))
    simp [ha, hr]

theorem scanAsteroids_asteroids (p : Projectile) (asteroids : List Asteroid) (score : Int) :
    (match scanAsteroids p asteroids score with
      | none => asteroids
      | some r => r.1) = asteroidsAfter p asteroids := by
  unfold asteroidsAfter
  cases hf : firstHit p asteroids with
  | none => rw [firstHit_none p asteroids score hf, firstHit_none p asteroids 0 hf]
  | some k =>
    obtain ⟨a, ha, _, h1⟩ := firstHit_some p asteroids score k hf
    obtain ⟨b, hb, _, h2⟩ := firstHit_some p asteroids 0 k hf
    rw [ha] at hb
    simp only [Option.some.injEq] at hb
    subst hb
    rw [h1, h2]

theorem projectileAsteroidPass_asteroids (projectiles : List Projectile) :
    ∀ (asteroids : List Asteroid) (score score1 : Int),
      (projectileAsteroidPass projectiles asteroids score).2.1
        = (projectileAsteroidPass projectiles asteroids score1).2.1 := by
  induction projectiles with
  | nil => intro asteroids score score1; rfl
  | cons p rest ih =>
    intro asteroids score score1
    have h1 := scanAsteroids_asteroids p asteroids score
    have h2 := scanAsteroids_asteroids p asteroids score1
    unfold projectileAsteroidPass
    rcases hs : scanAsteroids p asteroids score with _ | ⟨l, sc⟩
    · rcases hs1 : scanAsteroids p asteroids score1 with _ | ⟨l1, sc1⟩
      · exact ih asteroids score score1
      · rw [hs] at h1; rw [hs1] at h2
        simp only at h1 h2
        rw [h1, ← h2]
        exact ih _ _ _
    · rcases hs1 : scanAsteroids p asteroids score1 with _ | ⟨l1, sc1⟩
      · rw [hs] at h1; rw [hs1] at h2
        simp only at h1 h2
        rw [h2, ← h1]
        exact ih _ _ _
      · rw [hs] at h1; rw [hs1] at h2
        simp only at h1 h2
        rw [h1, ← h2]
        exact ih _ _ _

/-- The asteroid collection on which the pass continues after its first
projectile is `asteroidsAfter`. -/
theorem projectileAsteroidPass_cons_asteroids (p : Projectile) (rest : List Projectile)
    (asteroids : List Asteroid) (score : Int) :
    (projectileAsteroidPass (p :: rest) asteroids score).2.1
      = (projectileAsteroidPass rest (asteroidsAfter p asteroids) score).2.1 := by
  have h1 := scanAsteroids_asteroids p asteroids score
  rw [projectileAsteroidPass]
  rcases hs : scanAsteroids p asteroids score with _ | ⟨l, sc⟩
  · rw [hs] at h1
    simp only at h1
    rw [← h1]
  · rw [hs] at h1
    simp only at h1
    rw [← h1]
    exact projectileAsteroidPass_asteroids rest l sc score

theorem sampleProjectile_hits : projectileHits sampleProjectile sampleAsteroid = true := by
  simp [projectileHits, distanceLt, Vector2DistanceSqr, sampleProjectile, MakeProjectile,
    Projectile.new, Projectile.GetPosition, Projectile.GetRadius, sampleAsteroid,
    Asteroid.GetPosition, Asteroid.GetRadius]
  norm_num

theorem Ship.moveY_alive (s : Ship) (d : ℚ) : (s.moveY d).alive = s.alive := rfl

theorem Ship.moveX_alive (s : Ship) (d : ℚ) : (s.moveX d).alive = s.alive := rfl

theorem Ship.Update_alive (s : Ship) (dt : ℚ) (k : Keys) (texWidth : Int → Int) :
    (s.Update dt k texWidth).alive = s.alive := by
  unfold Ship.Update
  dsimp only
  split_ifs <;> rfl

theorem Ship.new_position :
    (Ship.new C_WIDTH C_HEIGHT texWidth).GetPosition = { x := 640, y := 360 } := by
  simp [Ship.new, Ship.LoadCurrentTexture, Ship.GetPosition, C_WIDTH, C_HEIGHT]
  constructor <;> norm_num

/-- C8: the restart logic changes the state only when the ship is not alive and
R is pressed (the preceding `player->Update` leaves `alive` as it is); in that
case the score is 0, both collections are empty, the spawn timer is 0 and the
ship is a newly constructed one, with 100 hit points, alive, at `(640, 360)`;
when the ship is alive the state is left unchanged whatever the keys. -/
theorem C8_restart (inp : FrameInput) (s : GameState) :
    (updateStep inp s).player.IsAlive = s.player.IsAlive
      ∧ (restartStep inp s ≠ s → s.player.IsAlive = false ∧ inp.keys.keyR = true)
      ∧ (s.player.IsAlive = false → inp.keys.keyR = true →
          (restartStep inp s).score = 0
            ∧ (restartStep inp s).asteroids = []
            ∧ (restartStep inp s).projectiles = []
            ∧ (restartStep inp s).spawnTimer = 0
            ∧ (restartStep inp s).player = Ship.new C_WIDTH C_HEIGHT inp.texWidth
            ∧ (restartStep inp s).player.GetHP = 100
            ∧ (restartStep inp s).player.IsAlive = true
            ∧ (restartStep inp s).player.GetPosition = { x := 640, y := 360 })
      ∧ (s.player.IsAlive = true → restartStep inp s = s) := by
  refine ⟨Ship.Update_alive _ _ _ _, ?_, ?_, ?_⟩
  · intro hne
    by_contra hcon
    apply hne
    unfold restartStep
    have : (!s.player.IsAlive && inp.keys.keyR) = false := by
      cases h1 : s.player.IsAlive <;> cases h2 : inp.keys.keyR <;> simp_all
    simp [this]
  · intro hdead hR
    have hc : (!s.player.IsAlive && inp.keys.keyR) = true := by simp [hdead, hR]
    unfold restartStep
    rw [if_pos hc]
    exact ⟨rfl, rfl, rfl, rfl, rfl, rfl, rfl, Ship.new_position⟩
  · intro halive
    unfold restartStep
    simp [halive]

/-- C8 at a state with a destroyed ship, one asteroid, one projectile and score
7, with R pressed: after the restart logic the score is 0 and the collections
are empty. -/
theorem C8_restart_witness :
    (restartStep sampleRestartInput sampleDeadState).score = 0
      ∧ (restartStep sampleRestartInput sampleDeadState).asteroids = []
      ∧ (restartStep sampleRestartInput sampleDeadState).projectiles = []
      ∧ (restartStep sampleRestartInput sampleDeadState).player.GetHP = 100 :=
  have h := (C8_restart sampleRestartInput sampleDeadState).2.2.1 (by decide) (by decide)
  ⟨h.1, h.2.1, h.2.2.1, h.2.2.2.2.2.1⟩

/-! ### C9: the ship stays dead -/

theorem Ship.TakeDamage_invariant (s : Ship) (dmg : Int) (h : s.alive = true ↔ 0 < s.hp) :
    ((s.TakeDamage dmg).alive = true ↔ 0 < (s.TakeDamage dmg).hp) := by
  unfold Ship.TakeDamage
  by_cases ha : s.alive = true
  · simp only [ha, Bool.not_true, Bool.false_eq_true, if_false]
    by_cases hd : s.hp - dmg ≤ 0
    · simp only [hd, if_true]
      constructor
      · intro hf; simp at hf
      · intro hpos; omega
    · simp only [hd, if_false, ha, true_iff]
      omega
  · have ha1 : s.alive = false := by simpa using ha
    have hc : (!s.alive) = true := by simp [ha1]
    rw [if_pos hc]
    exact h

theorem Ship.TakeDamage_dead (s : Ship) (dmg : Int) (h : s.alive = false) :
    s.TakeDamage dmg = s := by
  unfold Ship.TakeDamage
  simp [h]

theorem Ship.takeDamages_invariant (dmgs : List Int) (s : Ship)
    (h : s.alive = true ↔ 0 < s.hp) :
    ((s.takeDamages dmgs).alive = true ↔ 0 < (s.takeDamages dmgs).hp) := by
  induction dmgs generalizing s with
  | nil => exact h
  | cons d rest ih => exact ih (s.TakeDamage d) (Ship.TakeDamage_invariant s d h)

theorem Ship.takeDamages_dead (dmgs : List Int) (s : Ship) (h : s.alive = false) :
    s.takeDamages dmgs = s := by
  induction dmgs with
  | nil => rfl
  | cons d rest ih =>
    show (s.TakeDamage d).takeDamages rest = s
    rw [Ship.TakeDamage_dead s d h]
    exact ih

/-- C9: for a ship built by the constructor and any sequence of `TakeDamage`
calls with any damage values, after the sequence (so after each call) `alive`
is true exactly when the hit points are positive; and once `alive` is false,
any further calls leave the ship as it is: `alive` stays false and the hit
points no longer change. -/
theorem C9_ship_liveness (w h : Int) (texWidth : Int → Int) (dmgs more : List Int) :
    (((Ship.new w h texWidth).takeDamages dmgs).IsAlive = true
        ↔ 0 < ((Ship.new w h texWidth).takeDamages dmgs).GetHP)
      ∧ (((Ship.new w h texWidth).takeDamages dmgs).IsAlive = false →
          (((Ship.new w h texWidth).takeDamages dmgs).takeDamages more).IsAlive = false
            ∧ (((Ship.new w h texWidth).takeDamages dmgs).takeDamages more).GetHP
                = ((Ship.new w h texWidth).takeDamages dmgs).GetHP) := by
  constructor
  · apply Ship.takeDamages_invariant
    simp [Ship.new, Ship.LoadCurrentTexture]
  · intro hdead
    rw [Ship.takeDamages_dead more _ hdead]
    exact ⟨hdead, rfl⟩

/-- C9 at the start-up ship hit for 60 and 50: it is dead with -10 hit points,
and a later "damage" of -500 neither revives it nor changes its hit points. -/
theorem C9_ship_liveness_witness :
    ((sampleShip.takeDamages [60, 50]).takeDamages [-500]).IsAlive = false
      ∧ ((sampleShip.takeDamages [60, 50]).takeDamages [-500]).GetHP
          = (sampleShip.takeDamages [60, 50]).GetHP :=
  (C9_ship_liveness C_WIDTH C_HEIGHT (fun _ => 80) [60, 50] [-500]).2 (by decide)

/-! ### C10: the score over a frame -/

theorem beforeCollisions_eq (m : Libm) (fuel : Nat) (inp : FrameInput) (s pre : GameState)
    (h : beforeCollisions m fuel inp s = some pre) :
    ∃ shotTimer projectiles,
      pre = projectileUpdateStep inp (spawnStep m inp
        { beforeShooting inp s with shotTimer := shotTimer, projectiles := projectiles }) := by
  unfold beforeCollisions shootingStep at h
  rcases hsh : shooting m fuel (beforeShooting inp s).player (beforeShooting inp s).currentWeapon
      inp.keys.keySpace inp.dt (beforeShooting inp s).shotTimer
      (beforeShooting inp s).projectiles with _ | ⟨t, ps⟩
  · rw [hsh] at h
    simp at h
  · rw [hsh] at h
    simp only [Option.some.injEq] at h
    exact ⟨t, ps, h.symm⟩

theorem MakeAsteroid_hp (m : Libm) (w h : Int) (shape : AsteroidShape) (r : SpawnDraws) :
    (MakeAsteroid m w h shape r).hp
      = Asteroid.GetMaxHPForSize (MakeAsteroid m w h shape r).render.size := by
  unfold MakeAsteroid
  cases shape
  · rfl
  · rfl
  · rfl
  · dsimp only
    split
    · rfl
    · split <;> rfl

theorem MakeAsteroid_tier_hp (m : Libm) (w h : Int) (shape : AsteroidShape) (r : SpawnDraws) :
    ((MakeAsteroid m w h shape r).render.size = 4 ∧ (MakeAsteroid m w h shape r).hp = 200)
      ∨ ((MakeAsteroid m w h shape r).render.size = 2 ∧ (MakeAsteroid m w h shape r).hp = 150)
      ∨ ((MakeAsteroid m w h shape r).render.size = 1 ∧ (MakeAsteroid m w h shape r).hp = 75) := by
  have hsz : (MakeAsteroid m w h shape r).render.size = 1
      ∨ (MakeAsteroid m w h shape r).render.size = 2
      ∨ (MakeAsteroid m w h shape r).render.size = 4 := by
    rw [MakeAsteroid_render]; exact Asteroid.init_size m w h r
  rw [MakeAsteroid_hp]
  rcases hsz with h1 | h2 | h4
  · right; right; rw [h1]; exact ⟨rfl, rfl⟩
  · right; left; rw [h2]; exact ⟨rfl, rfl⟩
  · left; rw [h4]; exact ⟨rfl, rfl⟩

theorem hitSequence_replicate (d : Int) (hd : 0 < d) (n : Nat) :
    ∀ (a : Asteroid) (score : Int), 0 < a.hp →
      ((hitSequence a (List.replicate n d) score).1 = none ↔ a.hp ≤ (n : Int) * d) := by
  induction n with
  | zero =>
    intro a score hpos
    simp only [List.replicate, hitSequence, Nat.cast_zero, zero_mul]
    constructor
    · intro h; simp at h
    · intro h; omega
  | succ n ih =>
    intro a score hpos
    simp only [List.replicate, hitSequence]
    rcases hh : hitAsteroid d a score with ⟨_ | a1, score1⟩
    · have hdes := (hitAsteroid_none d a score score1 hh).1
      rw [Asteroid.TakeDamage_fst] at hdes
      have hle : a.hp - d ≤ 0 := by simpa using hdes
      have hn : (0 : Int) ≤ (n : Int) * d := mul_nonneg (Int.natCast_nonneg n) (le_of_lt hd)
      simp only [true_iff]
      push_cast
      linarith
    · obtain ⟨ha1, _, hsurv⟩ := hitAsteroid_some d a a1 score score1 hh
      rw [Asteroid.TakeDamage_fst] at hsurv
      have hgt : ¬ a.hp - d ≤ 0 := by simpa using hsurv
      have hhp : a1.hp = a.hp - d := by rw [ha1]; exact Asteroid.TakeDamage_hp a d
      have := ih a1 score1 (by rw [hhp]; omega)
      simp only
      rw [this, hhp]
      push_cast
      constructor <;> intro h <;> linarith

theorem ceil_div_le_iff (hp d : Int) (hd : 0 < d) (n : Nat) :
    ⌈(hp : ℚ) / (d : ℚ)⌉₊ ≤ n ↔ hp ≤ (n : Int) * d := by
  have hdq : (0 : ℚ) < (d : ℚ) := by exact_mod_cast hd
  rw [Nat.ceil_le, div_le_iff₀ hdq]
  constructor
  · intro h; exact_mod_cast h
  · intro h; exact_mod_cast h

/-- C11: a freshly spawned asteroid has tier 4 and 200 hit points, tier 2 and
150, or tier 1 and 75; hit repeatedly with a fixed positive damage `d` (so for
the weapon damages 20, 40 and 15), it is destroyed within the first `n` hits
exactly when `n ≥ ⌈hp / d⌉`: `TakeDamage` returns destroyed for the first time
on hit number `⌈hp / d⌉`; and the score after that hit has grown by 10, 5 or 2
by the tier at spawn. -/
theorem C11_hits_to_destroy (m : Libm) (w h : Int) (shape : AsteroidShape) (r : SpawnDraws)
    (d : Int) (n : Nat) (score : Int) (hd : 0 < d) :
    (((MakeAsteroid m w h shape r).render.size = 4 ∧ (MakeAsteroid m w h shape r).hp = 200)
        ∨ ((MakeAsteroid m w h shape r).render.size = 2 ∧ (MakeAsteroid m w h shape r).hp = 150)
        ∨ ((MakeAsteroid m w h shape r).render.size = 1 ∧ (MakeAsteroid m w h shape r).hp = 75))
      ∧ ((hitSequence (MakeAsteroid m w h shape r) (List.replicate n d) score).1 = none
          ↔ ⌈((MakeAsteroid m w h shape r).hp : ℚ) / (d : ℚ)⌉₊ ≤ n)
      ∧ (hitSequence (MakeAsteroid m w h shape r)
            (List.replicate ⌈((MakeAsteroid m w h shape r).hp : ℚ) / (d : ℚ)⌉₊ d) score).2
          = score + (if (MakeAsteroid m w h shape r).render.size = 4 then 10
              else if (MakeAsteroid m w h shape r).render.size = 2 then 5 else 2) := by
  have htier := MakeAsteroid_tier_hp m w h shape r
  have hpos : 0 < (MakeAsteroid m w h shape r).hp := by
    rcases htier with ⟨_, h1⟩ | ⟨_, h1⟩ | ⟨_, h1⟩ <;> rw [h1] <;> decide
  have hiff : ∀ k : Nat,
      ((hitSequence (MakeAsteroid m w h shape r) (List.replicate k d) score).1 = none
        ↔ ⌈((MakeAsteroid m w h shape r).hp : ℚ) / (d : ℚ)⌉₊ ≤ k) := by
    intro k
    rw [hitSequence_replicate d hd k _ score hpos, ceil_div_le_iff _ d hd k]
  refine ⟨htier, hiff n, ?_⟩
  have hdead := (hiff ⌈((MakeAsteroid m w h shape r).hp : ℚ) / (d : ℚ)⌉₊).mpr (le_refl _)
  rw [(hitSequence_score _ (MakeAsteroid m w h shape r) score).1 hdead,
    MakeAsteroid_originalSize, MakeAsteroid_render]
  rcases Asteroid.init_size m w h r with h1 | h2 | h4
  · simp [h1]
  · simp [h2]
  · simp [h4]

/-- C11 at a large triangle (tier 4, 200 hit points) hit by the LASER (20): it
is destroyed by the 10th hit and not by the 9th, so `⌈200 / 20⌉` is 10. -/
theorem C11_hits_to_destroy_witness :
    ⌈((MakeAsteroid sampleLibm C_WIDTH C_HEIGHT .TRIANGLE sampleDraws).hp : ℚ)
        / (LASER_DAMAGE : ℚ)⌉₊ ≤ 10
      ∧ ¬ ⌈((MakeAsteroid sampleLibm C_WIDTH C_HEIGHT .TRIANGLE sampleDraws).hp : ℚ)
        / (LASER_DAMAGE : ℚ)⌉₊ ≤ 9
      ∧ (hitSequence (MakeAsteroid sampleLibm C_WIDTH C_HEIGHT .TRIANGLE sampleDraws)
          (List.replicate 10 LASER_DAMAGE) 0).2 = 10 :=
  ⟨(C11_hits_to_destroy sampleLibm C_WIDTH C_HEIGHT .TRIANGLE sampleDraws LASER_DAMAGE 10 0
      (by decide)).2.1.mp (by decide),
    fun h => absurd ((C11_hits_to_destroy sampleLibm C_WIDTH C_HEIGHT .TRIANGLE sampleDraws
      LASER_DAMAGE 9 0 (by decide)).2.1.mpr h) (by decide),
    by decide⟩

/-! ### C12: the projectiles of one firing event -/

theorem firstHit_none_no_hit (p : Projectile) (asteroids : List Asteroid)
    (h : firstHit p asteroids = none) : ∀ a ∈ asteroids, projectileHits p a = false := by
  induction asteroids with
  | nil => intro a ha; simp at ha
  | cons c rest ih =>
    unfold firstHit at h
    by_cases hh : projectileHits p c = true
    · simp [hh] at h
    · have hh1 : projectileHits p c = false := by simpa using hh
      simp only [hh1, Bool.false_eq_true, if_false] at h
      cases hr : firstHit p rest with
      | none =>
        intro a ha
        simp only [List.mem_cons] at ha
        rcases ha with ha | ha
        · rw [ha]; exact hh1
        · exact ih hr a ha
      | some k => simp [hr] at h

theorem firstHit_before (p : Projectile) (asteroids : List Asteroid) (k : Nat)
    (h : firstHit p asteroids = some k) :
    ∀ k1 < k, ∀ b, asteroids[k1]? = some b → projectileHits p b = false := by
  induction asteroids generalizing k with
  | nil => simp [firstHit] at h
  | cons c rest ih =>
    unfold firstHit at h
    by_cases hh : projectileHits p c = true
    · simp only [hh, if_true, Option.some.injEq] at h
      subst h
      intro k1 hk1; omega
    · have hh1 : projectileHits p c = false := by simpa using hh
      simp only [hh1, Bool.false_eq_true, if_false] at h
      cases hr : firstHit p rest with
      | none => simp [hr] at h
      | some k0 =>
        simp only [hr, Option.some.injEq] at h
        subst h
        intro k1 hk1 b hb
        cases k1 with
        | zero =>
          simp only [List.getElem?_cons_zero, Option.some.injEq] at hb
          rw [← hb]; exact hh1
        | succ k2 =>
          exact ih k0 hr k2 (by omega) b (by simpa using hb)

theorem projectileAsteroidPass_sublist (projectiles : List Projectile) :
    ∀ (asteroids : List Asteroid) (score : Int),
      (projectileAsteroidPass projectiles asteroids score).1.Sublist projectiles := by
  induction projectiles with
  | nil => intro asteroids score; simp [projectileAsteroidPass]
  | cons p rest ih =>
    intro asteroids score
    rw [projectileAsteroidPass]
    rcases hs : scanAsteroids p asteroids score with _ | ⟨asteroids1, score1⟩
    · exact List.Sublist.cons₂ p (ih asteroids score)
    · exact List.Sublist.cons p (ih asteroids1 score1)

/-- C15: in the projectile-asteroid pass, for the projectile `p` at the head of
the collection: `p` hits nothing exactly when no asteroid of the current
collection has its centre closer than the sum of the radii, and then `p` is kept
and the asteroids and the score are as the pass on the remaining projectiles
leaves them; otherwise `p` damages the first such asteroid in collection order
and only that one (it is erased when destroyed and replaced by its damaged
state otherwise, all other asteroids stay as they are), `p` is dropped whether
or not the asteroid was destroyed, and the pass continues with the remaining
projectiles; the projectiles kept by the pass are a sublist of the projectiles
at the start, so they keep their relative order. -/
theorem C15_first_match_single_hit (p : Projectile) (rest : List Projectile)
    (asteroids : List Asteroid) (score : Int) :
    (firstHit p asteroids = none ↔ ∀ a ∈ asteroids, projectileHits p a = false)
      ∧ (firstHit p asteroids = none →
          projectileAsteroidPass (p :: rest) asteroids score
            = (p :: (projectileAsteroidPass rest asteroids score).1,
                (projectileAsteroidPass rest asteroids score).2.1,
                (projectileAsteroidPass rest asteroids score).2.2))
      ∧ (∀ k, firstHit p asteroids = some k →
          ∃ a, asteroids[k]? = some a ∧ projectileHits p a = true
            ∧ (∀ k1 < k, ∀ b, asteroids[k1]? = some b → projectileHits p b = false)
            ∧ projectileAsteroidPass (p :: rest) asteroids score
                = projectileAsteroidPass rest
                    (if (a.TakeDamage p.GetDamage).1 then asteroids.eraseIdx k
                      else asteroids.set k (a.TakeDamage p.GetDamage).2)
                    (hitAsteroid p.GetDamage a score).2)
      ∧ (projectileAsteroidPass (p :: rest) asteroids score).1.Sublist (p :: rest) := by
  refine ⟨⟨firstHit_none_no_hit p asteroids, firstHit_of_no_hit p asteroids⟩, ?_, ?_,
    projectileAsteroidPass_sublist (p :: rest) asteroids score⟩
  · intro hnone
    rw [projectileAsteroidPass, firstHit_none p asteroids score hnone]
  · intro k hk
    obtain ⟨a, ha, hh, hscan⟩ := firstHit_some p asteroids score k hk
    refine ⟨a, ha, hh, firstHit_before p asteroids k hk, ?_⟩
    rw [projectileAsteroidPass, hscan]

/-- C15 at the laser shot that overlaps two asteroids: it damages the one at
index 0 and the pass goes on without the shot. -/
theorem C15_first_match_single_hit_witness :
    ∃ a, [sampleAsteroid, sampleAsteroid2][0]? = some a
      ∧ projectileHits sampleProjectile a = true
      ∧ (∀ k1 < 0, ∀ b, [sampleAsteroid, sampleAsteroid2][k1]? = some b →
          projectileHits sampleProjectile b = false)
      ∧ projectileAsteroidPass (sampleProjectile :: []) [sampleAsteroid, sampleAsteroid2] 0
          = projectileAsteroidPass []
              (if (a.TakeDamage sampleProjectile.GetDamage).1
                then [sampleAsteroid, sampleAsteroid2].eraseIdx 0
                else [sampleAsteroid, sampleAsteroid2].set 0
                  (a.TakeDamage sampleProjectile.GetDamage).2)
              (hitAsteroid sampleProjectile.GetDamage a 0).2 :=
  (C15_first_match_single_hit sampleProjectile [] [sampleAsteroid, sampleAsteroid2] 0).2.2.1 0
    (by simp [firstHit, sampleProjectile_hits])

/-! ### C16: the asteroid-ship pass -/

theorem asteroidShipPass_dead (dt : ℚ) (asteroids : List Asteroid) (player : Ship)
    (hdead : player.IsAlive = false) : (asteroidShipPass dt asteroids player).2 = player := by
  induction asteroids with
  | nil => rfl
  | cons a rest ih =>
    rw [asteroidShipPass]
    have hc : ¬ (player.IsAlive = true
        ∧ distanceLt player.GetPosition a.GetPosition (player.GetRadius + a.GetRadius) = true) := by
      rw [hdead]; simp
    rw [if_neg hc]
    dsimp only
    split
    · exact ih
    · exact ih

theorem MakeAsteroid_baseDamage (m : Libm) (w h : Int) (shape : AsteroidShape)
    (r : SpawnDraws) :
    (shape = .TRIANGLE → (MakeAsteroid m w h shape r).baseDamage = 5)
      ∧ (shape = .SQUARE → (MakeAsteroid m w h shape r).baseDamage = 10)
      ∧ (shape = .PENTAGON → (MakeAsteroid m w h shape r).baseDamage = 15)
      ∧ ((MakeAsteroid m w h shape r).baseDamage = 5
          ∨ (MakeAsteroid m w h shape r).baseDamage = 10
          ∨ (MakeAsteroid m w h shape r).baseDamage = 15) := by
  cases shape
  · refine ⟨fun _ => rfl, ?_, ?_, Or.inl rfl⟩ <;> intro h <;> cases h
  · refine ⟨?_, fun _ => rfl, ?_, Or.inr (Or.inl rfl)⟩ <;> intro h <;> cases h
  · refine ⟨?_, ?_, fun _ => rfl, Or.inr (Or.inr rfl)⟩ <;> intro h <;> cases h
  · refine ⟨?_, ?_, ?_, ?_⟩
    · intro h; cases h
    · intro h; cases h
    · intro h; cases h
    · unfold MakeAsteroid
      dsimp only
      split
      · exact Or.inl rfl
      · split
        · exact Or.inr (Or.inl rfl)
        · exact Or.inr (Or.inr rfl)

theorem Asteroid.TakeDamage_baseDamage (a : Asteroid) (dmg : Int) :
    (a.TakeDamage dmg).2.baseDamage = a.baseDamage := by
  unfold Asteroid.TakeDamage
  by_cases h : a.hp - dmg ≤ 0
  · simp [h]
  · simp only [h, if_false]
    split <;> rfl

theorem Asteroid.Update_baseDamage (a : Asteroid) (dt : ℚ) :
    (a.Update dt).2.baseDamage = a.baseDamage := by
  unfold Asteroid.Update
  dsimp only
  split <;> rfl

theorem applyOps_baseDamage (ops : List AsteroidOp) (a : Asteroid) :
    (applyOps a ops).baseDamage = a.baseDamage := by
  induction ops generalizing a with
  | nil => rfl
  | cons op ops ih =>
    have h1 : (op.apply a).baseDamage = a.baseDamage := by
      cases op with
      | update dt => exact Asteroid.Update_baseDamage a dt
      | takeDamage dmg => exact Asteroid.TakeDamage_baseDamage a dmg
    show (applyOps (op.apply a) ops).baseDamage = a.baseDamage
    rw [ih, h1]

theorem Ship.TakeDamage_hp_alive (s : Ship) (dmg : Int) (h : s.IsAlive = true) :
    (s.TakeDamage dmg).hp = s.hp - dmg := by
  unfold Ship.TakeDamage
  have hn : (!s.alive) = false := by
    unfold Ship.IsAlive at h
    simp [h]
  rw [hn]
  simp only [Bool.false_eq_true, if_false]
  split <;> rfl

/-- C16: in the asteroid-ship pass, for the asteroid `a` at the head of the
collection: if the ship is alive and the centre distance is below the sum of the
radii, `a` is removed (the pass goes on with the remaining asteroids only) and
the ship loses exactly `baseDamage * size tier` hit points, where `baseDamage`
is 5, 10, 15 for a triangle, square, pentagon; for a spawned asteroid, after any
operations, a further hit never raises the damage it deals; and if the ship is
not alive, the overlap test plays no part: `a` is only advanced and dropped if
out of bounds, and the ship is the same after the whole pass. -/
theorem C16_asteroid_ship_pass (m : Libm) (w h : Int) (shape : AsteroidShape) (r : SpawnDraws)
    (ops : List AsteroidOp) (dmg : Int) (dt : ℚ) (a : Asteroid) (rest : List Asteroid)
    (player : Ship) :
    (player.IsAlive = true →
        distanceLt player.GetPosition a.GetPosition (player.GetRadius + a.GetRadius) = true →
        asteroidShipPass dt (a :: rest) player
            = asteroidShipPass dt rest (player.TakeDamage a.GetDamage)
          ∧ (player.TakeDamage a.GetDamage).GetHP
              = player.GetHP - a.baseDamage * a.render.size)
      ∧ ((shape = .TRIANGLE → (MakeAsteroid m w h shape r).baseDamage = 5)
          ∧ (shape = .SQUARE → (MakeAsteroid m w h shape r).baseDamage = 10)
          ∧ (shape = .PENTAGON → (MakeAsteroid m w h shape r).baseDamage = 15)
          ∧ ((MakeAsteroid m w h shape r).baseDamage = 5
              ∨ (MakeAsteroid m w h shape r).baseDamage = 10
              ∨ (MakeAsteroid m w h shape r).baseDamage = 15))
      ∧ (((applyOps (MakeAsteroid m w h shape r) ops).TakeDamage dmg).2.GetDamage
          ≤ (applyOps (MakeAsteroid m w h shape r) ops).GetDamage)
      ∧ (player.IsAlive = false →
          asteroidShipPass dt (a :: rest) player
              = (if !(a.Update dt).1 then asteroidShipPass dt rest player
                  else ((a.Update dt).2 :: (asteroidShipPass dt rest player).1,
                        (asteroidShipPass dt rest player).2))
            ∧ (asteroidShipPass dt (a :: rest) player).2 = player) := by
  refine ⟨?_, MakeAsteroid_baseDamage m w h shape r, ?_, ?_⟩
  · intro halive hover
    constructor
    · rw [asteroidShipPass, if_pos ⟨halive, hover⟩]
    · exact Ship.TakeDamage_hp_alive player _ halive
  · unfold Asteroid.GetDamage
    rw [Asteroid.TakeDamage_baseDamage, applyOps_baseDamage]
    have hb : 0 ≤ (MakeAsteroid m w h shape r).baseDamage := by
      rcases (MakeAsteroid_baseDamage m w h shape r).2.2.2 with h1 | h1 | h1 <;> rw [h1]
        <;> decide
    exact mul_le_mul_of_nonneg_left (Asteroid.TakeDamage_size_le _ dmg) hb
  · intro hdead
    constructor
    · rw [asteroidShipPass]
      have hc : ¬ (player.IsAlive = true
          ∧ distanceLt player.GetPosition a.GetPosition (player.GetRadius + a.GetRadius)
              = true) := by
        rw [hdead]; simp
      rw [if_neg hc]
    · exact asteroidShipPass_dead dt (a :: rest) player hdead

theorem sampleAsteroid5_near : distanceLt sampleShip.GetPosition sampleAsteroid5.GetPosition
    (sampleShip.GetRadius + sampleAsteroid5.GetRadius) = true := by
  simp [distanceLt, Vector2DistanceSqr, sampleShip, Ship.new, Ship.LoadCurrentTexture,
    Ship.GetPosition, Ship.GetRadius, sampleAsteroid5, sampleAsteroid, Asteroid.GetPosition,
    Asteroid.GetRadius, C_WIDTH, C_HEIGHT]
  norm_num

/-- C16 at the start-up ship and a medium square (base damage 10, tier 2) at the
ship's position: the asteroid is removed and the ship loses 20 hit points; and
at a destroyed ship the pass leaves the ship as it is. -/
theorem C16_asteroid_ship_pass_witness :
    (asteroidShipPass (1 / 60) (sampleAsteroid5 :: []) sampleShip
          = asteroidShipPass (1 / 60) [] (sampleShip.TakeDamage sampleAsteroid5.GetDamage)
        ∧ (sampleShip.TakeDamage sampleAsteroid5.GetDamage).GetHP
            = sampleShip.GetHP - sampleAsteroid5.baseDamage * sampleAsteroid5.render.size)
      ∧ (asteroidShipPass (1 / 60) (sampleAsteroid5 :: []) sampleDeadState.player).2
          = sampleDeadState.player :=
  ⟨(C16_asteroid_ship_pass sampleLibm C_WIDTH C_HEIGHT .SQUARE sampleDraws [] 0 (1 / 60)
      sampleAsteroid5 [] sampleShip).1 (by decide) sampleAsteroid5_near,
    ((C16_asteroid_ship_pass sampleLibm C_WIDTH C_HEIGHT .SQUARE sampleDraws [] 0 (1 / 60)
      sampleAsteroid5 [] sampleDeadState.player).2.2.2 (by decide)).2⟩

/-! ### C19: the weapon selection -/

theorem weaponStep_tab (inp : FrameInput) (s : GameState) (htab : inp.keys.keyTab = true) :
    (weaponStep inp s).currentWeapon
      = WeaponType.ofInt ((s.currentWeapon.toInt + 1) % WeaponType.COUNT.toInt) := by
  unfold weaponStep
  rw [if_pos htab]

theorem weaponStep_currentWeapon_valid (inp : FrameInput) (s : GameState)
    (h : s.currentWeapon ≠ .COUNT) : (weaponStep inp s).currentWeapon ≠ .COUNT := by
  unfold weaponStep
  split
  · show WeaponType.ofInt ((s.currentWeapon.toInt + 1) % WeaponType.COUNT.toInt) ≠ .COUNT
    cases hw : s.currentWeapon
    · decide
    · decide
    · decide
    · exact absurd hw h
  · exact h

theorem restartStep_currentWeapon (inp : FrameInput) (s : GameState) :
    (restartStep inp s).currentWeapon = s.currentWeapon
      ∧ (restartStep inp s).shotTimer = s.shotTimer := by
  unfold restartStep
  split <;> exact ⟨rfl, rfl⟩

theorem shapeStep_currentWeapon (inp : FrameInput) (s : GameState) :
    (shapeStep inp s).currentWeapon = s.currentWeapon
      ∧ (shapeStep inp s).shotTimer = s.shotTimer := by
  unfold shapeStep
  dsimp only
  split_ifs <;> exact ⟨rfl, rfl⟩

theorem spawnStep_currentWeapon (m : Libm) (inp : FrameInput) (s : GameState) :
    (spawnStep m inp s).currentWeapon = s.currentWeapon
      ∧ (spawnStep m inp s).shotTimer = s.shotTimer := by
  unfold spawnStep
  split <;> exact ⟨rfl, rfl⟩

theorem beforeShooting_currentWeapon (inp : FrameInput) (s : GameState) :
    (beforeShooting inp s).currentWeapon = (weaponStep inp s).currentWeapon := by
  unfold beforeShooting weaponStep
  split
  · show WeaponType.ofInt (((shapeStep inp (restartStep inp (updateStep inp s))).currentWeapon.toInt
        + 1) % WeaponType.COUNT.toInt) = _
    rw [(shapeStep_currentWeapon _ _).1, (restartStep_currentWeapon _ _).1]
    rfl
  · rw [(shapeStep_currentWeapon _ _).1, (restartStep_currentWeapon _ _).1]
    rfl

theorem frameStep_currentWeapon (m : Libm) (fuel : Nat) (inp : FrameInput) (s s1 : GameState)
    (hstep : frameStep m fuel inp s = some s1) :
    s1.currentWeapon = (weaponStep inp s).currentWeapon := by
  unfold frameStep at hstep
  rcases hb : beforeCollisions m fuel inp s with _ | pre
  · rw [hb] at hstep; simp at hstep
  · rw [hb] at hstep
    simp only [Option.some.injEq] at hstep
    obtain ⟨t, ps, hpre⟩ := beforeCollisions_eq m fuel inp s pre hb
    rw [← hstep, ← beforeShooting_currentWeapon]
    show pre.currentWeapon = _
    rw [hpre]
    show (spawnStep m inp _).currentWeapon = _
    rw [(spawnStep_currentWeapon _ _ _).1]

theorem Reachable.currentWeapon_valid (m : Libm) (s : GameState) (hs : Reachable m s) :
    s.currentWeapon ≠ .COUNT := by
  induction hs with
  | start texWidth uInterval => show WeaponType.LASER ≠ .COUNT; decide
  | frame fuel inp s s1 _ hstep ih =>
    rw [frameStep_currentWeapon m fuel inp s s1 hstep]
    exact weaponStep_currentWeapon_valid inp s ih

theorem weaponStep_three (inp1 inp2 inp3 : FrameInput) (s : GameState)
    (h1 : inp1.keys.keyTab = true) (h2 : inp2.keys.keyTab = true)
    (h3 : inp3.keys.keyTab = true) (h : s.currentWeapon ≠ .COUNT) :
    (weaponStep inp3 (weaponStep inp2 (weaponStep inp1 s))).currentWeapon = s.currentWeapon := by
  rw [weaponStep_tab _ _ h3, weaponStep_tab _ _ h2, weaponStep_tab _ _ h1]
  cases hw : s.currentWeapon
  · decide
  · decide
  · decide
  · exact absurd hw h

/-- C19: a weapon-switch input maps LASER to BULLET, BULLET to TRIPLE and TRIPLE
to LASER; the initial state selects LASER; in every state reachable from the
initial state the selected weapon is LASER, BULLET or TRIPLE and not the
sentinel COUNT; three consecutive switches return the weapon selected before
them; and the weapon selected after a frame is the one the switch of that frame
selects. -/
theorem C19_weapon_cycle (m : Libm) (s : GameState) (hs : Reachable m s)
    (inp1 inp2 inp3 : FrameInput) (h1 : inp1.keys.keyTab = true)
    (h2 : inp2.keys.keyTab = true) (h3 : inp3.keys.keyTab = true) :
    ((weaponStep inp1 { s with currentWeapon := .LASER }).currentWeapon = .BULLET
        ∧ (weaponStep inp1 { s with currentWeapon := .BULLET }).currentWeapon = .TRIPLE
        ∧ (weaponStep inp1 { s with currentWeapon := .TRIPLE }).currentWeapon = .LASER)
      ∧ (∀ texWidth uInterval, (initialState texWidth uInterval).currentWeapon = .LASER)
      ∧ (s.currentWeapon = .LASER ∨ s.currentWeapon = .BULLET ∨ s.currentWeapon = .TRIPLE)
      ∧ s.currentWeapon ≠ .COUNT
      ∧ (weaponStep inp3 (weaponStep inp2 (weaponStep inp1 s))).currentWeapon = s.currentWeapon
      ∧ (∀ fuel s1, frameStep m fuel inp1 s = some s1 →
          s1.currentWeapon = (weaponStep inp1 s).currentWeapon) := by
  have hv := Reachable.currentWeapon_valid m s hs
  refine ⟨⟨?_, ?_, ?_⟩, fun _ _ => rfl, ?_, hv, weaponStep_three inp1 inp2 inp3 s h1 h2 h3 hv,
    fun fuel s1 hstep => frameStep_currentWeapon m fuel inp1 s s1 hstep⟩
  · rw [weaponStep_tab _ _ h1]; rfl
  · rw [weaponStep_tab _ _ h1]; rfl
  · rw [weaponStep_tab _ _ h1]; rfl
  · cases hw : s.currentWeapon
    · exact Or.inl rfl
    · exact Or.inr (Or.inl rfl)
    · exact Or.inr (Or.inr rfl)
    · exact absurd hw hv

theorem sampleTab_beforeCollisions :
    beforeCollisions sampleLibm 0 sampleTabInput (initialState (fun _ => 80) (1 / 2))
      = some { initialState (fun _ => 80) (1 / 2) with
          spawnTimer := 1 / 60, currentWeapon := .BULLET } := by
  simp [beforeCollisions, beforeShooting, shootingStep, shooting, weaponStep,
    shapeStep, restartStep, updateStep, spawnStep, projectileUpdateStep, updateProjectiles,
    sampleTabInput, sampleIdleInput, initialState, Ship.new, Ship.LoadCurrentTexture, Ship.Update,
    Ship.IsAlive, Ship.GetFireRate, RandomFloat, C_SPAWN_MIN, C_SPAWN_MAX, WeaponType.ofInt,
    WeaponType.toInt]
  norm_num
  rfl

theorem sampleTab_frameStep :
    frameStep sampleLibm 0 sampleTabInput (initialState (fun _ => 80) (1 / 2))
      = some { initialState (fun _ => 80) (1 / 2) with
          spawnTimer := 1 / 60, currentWeapon := .BULLET } := by
  unfold frameStep
  rw [sampleTab_beforeCollisions]
  rfl

/-- C19 at the initial state and three frames with the key Tab pressed: the
selection goes from LASER to BULLET in a frame and is LASER again after three
switches. -/
theorem C19_weapon_cycle_witness :
    (initialState (fun _ => 80) (1 / 2)).currentWeapon ≠ .COUNT
      ∧ (weaponStep sampleTabInput (weaponStep sampleTabInput (weaponStep sampleTabInput
            (initialState (fun _ => 80) (1 / 2))))).currentWeapon
          = (initialState (fun _ => 80) (1 / 2)).currentWeapon
      ∧ ({ initialState (fun _ => 80) (1 / 2) with
            spawnTimer := 1 / 60, currentWeapon := .BULLET } : GameState).currentWeapon
          = (weaponStep sampleTabInput (initialState (fun _ => 80) (1 / 2))).currentWeapon :=
  have h := C19_weapon_cycle sampleLibm (initialState (fun _ => 80) (1 / 2))
    (Reachable.start _ _) sampleTabInput sampleTabInput sampleTabInput rfl rfl rfl
  ⟨h.2.2.2.1, h.2.2.2.2.1, h.2.2.2.2.2 0 _ sampleTab_frameStep⟩

/-! ### C20: the fire rates are positive -/

theorem Asteroid.TakeDamage_sync (a : Asteroid) (dmg : Int)
    (hs : a.render.size = a.GetSizeForHP) (hd : 0 ≤ dmg) (hnd : (a.TakeDamage dmg).1 = false) :
    (a.TakeDamage dmg).2.render.size = (a.TakeDamage dmg).2.GetSizeForHP
      ∧ 0 < (a.TakeDamage dmg).2.hp := by
  have hpos : ¬ a.hp - dmg ≤ 0 := by
    rw [Asteroid.TakeDamage_fst] at hnd
    exact of_decide_eq_false hnd
  refine ⟨?_, ?_⟩
  · unfold Asteroid.GetSizeForHP at hs
    unfold Asteroid.TakeDamage Asteroid.GetSizeForHP
    dsimp only
    rw [if_neg hpos]
    split_ifs at hs ⊢ <;> dsimp only <;> omega
  · rw [Asteroid.TakeDamage_hp]
    omega

theorem MakeAsteroid_sync (m : Libm) (w h : Int) (shape : AsteroidShape) (r : SpawnDraws) :
    (MakeAsteroid m w h shape r).render.size = (MakeAsteroid m w h shape r).GetSizeForHP
      ∧ 0 < (MakeAsteroid m w h shape r).hp := by
  unfold Asteroid.GetSizeForHP
  rcases MakeAsteroid_tier_hp m w h shape r with ⟨h1, h2⟩ | ⟨h1, h2⟩ | ⟨h1, h2⟩ <;>
    rw [h1, h2] <;> decide

theorem hitSequence_sync (dmgs : List Int) :
    ∀ (a a1 : Asteroid) (score : Int), (∀ d ∈ dmgs, 0 < d) →
      a.render.size = a.GetSizeForHP → 0 < a.hp →
      (hitSequence a dmgs score).1 = some a1 →
      a1.render.size = a1.GetSizeForHP ∧ 0 < a1.hp := by
  induction dmgs with
  | nil =>
    intro a a1 score _ hs hp h
    simp only [hitSequence, Option.some.injEq] at h
    rw [← h]
    exact ⟨hs, hp⟩
  | cons d rest ih =>
    intro a a1 score hd hs _ h
    rw [hitSequence] at h
    rcases hh : hitAsteroid d a score with ⟨_ | a2, sc⟩
    · rw [hh] at h
      simp at h
    · rw [hh] at h
      obtain ⟨ha2, _, hnd⟩ := hitAsteroid_some d a a2 score sc hh
      have hd0 : 0 < d := hd d (List.mem_cons_self _ _)
      have hsync := Asteroid.TakeDamage_sync a d hs (le_of_lt hd0) hnd
      rw [← ha2] at hsync
      exact ih a2 a1 sc (fun x hx => hd x (List.mem_cons_of_mem _ hx)) hsync.1 hsync.2 h

theorem Asteroid.TakeDamage_large_to_small (a : Asteroid) (dmg : Int) (hsize : a.render.size = 4)
    (h0 : 0 < a.hp - dmg) (h75 : a.hp - dmg ≤ 75) :
    (a.TakeDamage dmg).1 = false ∧ (a.TakeDamage dmg).2.render.size = 1 := by
  have hpos : ¬ a.hp - dmg ≤ 0 := not_le.mpr h0
  constructor
  · rw [Asteroid.TakeDamage_fst]
    exact decide_eq_false hpos
  · unfold Asteroid.TakeDamage Asteroid.GetSizeForHP
    dsimp only
    rw [if_neg hpos]
    split_ifs <;> dsimp only <;> omega

/-- C18: an asteroid is spawned with tier 4 and 200 hit points, tier 2 and 150 or
tier 1 and 75; for every asteroid `a` that the program reaches from a spawned
asteroid by a sequence of hits with positive damage none of which destroys it,
the size tier of `a` is the table tier of its hit points (`GetSizeForHP`: 4 above
150, 2 above 75 up to 150, 1 from 1 up to 75) and its hit points are positive;
and a single hit that takes a tier-4 asteroid to between 1 and 75 hit points
leaves it at tier 1 at once. -/
theorem C18_snap_down (m : Libm) (w h : Int) (shape : AsteroidShape) (r : SpawnDraws)
    (dmgs : List Int) (score : Int) (a : Asteroid) (hpos : ∀ d ∈ dmgs, 0 < d)
    (hseq : (hitSequence (MakeAsteroid m w h shape r) dmgs score).1 = some a) :
    (((MakeAsteroid m w h shape r).render.size = 4 ∧ (MakeAsteroid m w h shape r).hp = 200)
        ∨ ((MakeAsteroid m w h shape r).render.size = 2 ∧ (MakeAsteroid m w h shape r).hp = 150)
        ∨ ((MakeAsteroid m w h shape r).render.size = 1 ∧ (MakeAsteroid m w h shape r).hp = 75))
      ∧ a.render.size = a.GetSizeForHP
      ∧ 0 < a.hp
      ∧ (a.render.size = 4 ↔ 150 < a.hp)
      ∧ (a.render.size = 2 ↔ 75 < a.hp ∧ a.hp ≤ 150)
      ∧ (a.render.size = 1 ↔ 0 < a.hp ∧ a.hp ≤ 75)
      ∧ (∀ b : Asteroid, ∀ dmg : Int, b.render.size = 4 → 0 < b.hp - dmg → b.hp - dmg ≤ 75 →
          (b.TakeDamage dmg).1 = false ∧ (b.TakeDamage dmg).2.render.size = 1) := by
  obtain ⟨hs0, hp0⟩ := MakeAsteroid_sync m w h shape r
  obtain ⟨hs, hp⟩ := hitSequence_sync dmgs _ a score hpos hs0 hp0 hseq
  refine ⟨MakeAsteroid_tier_hp m w h shape r, hs, hp, ?_, ?_, ?_,
    fun b dmg h4 h0 h75 => Asteroid.TakeDamage_large_to_small b dmg h4 h0 h75⟩
  · rw [hs]; unfold Asteroid.GetSizeForHP; split_ifs <;> omega
  · rw [hs]; unfold Asteroid.GetSizeForHP; split_ifs <;> omega
  · rw [hs]; unfold Asteroid.GetSizeForHP; split_ifs <;> omega

/-- C18 at a large square (tier 4, 200 hit points) hit once with damage 130: the
asteroid survives with 70 hit points and its tier is 1, the table tier of 70. -/
theorem C18_snap_down_witness :
    (((MakeAsteroid sampleLibm C_WIDTH C_HEIGHT .SQUARE sampleDraws).TakeDamage 130).2.render.size
        = ((MakeAsteroid sampleLibm C_WIDTH C_HEIGHT .SQUARE sampleDraws).TakeDamage 130).2.GetSizeForHP)
      ∧ (((MakeAsteroid sampleLibm C_WIDTH C_HEIGHT .SQUARE sampleDraws).TakeDamage 130).2.render.size
          = 1
        ↔ 0 < ((MakeAsteroid sampleLibm C_WIDTH C_HEIGHT .SQUARE sampleDraws).TakeDamage 130).2.hp
          ∧ ((MakeAsteroid sampleLibm C_WIDTH C_HEIGHT .SQUARE sampleDraws).TakeDamage 130).2.hp
              ≤ 75) :=
  have h := C18_snap_down sampleLibm C_WIDTH C_HEIGHT .SQUARE sampleDraws [130] 0
    ((MakeAsteroid sampleLibm C_WIDTH C_HEIGHT .SQUARE sampleDraws).TakeDamage 130).2
    (by decide) rfl
  ⟨h.2.1, h.2.2.2.2.2.1⟩

/-! ### C17: the shot timer while fire is not held -/

theorem fmodf_bounds (t i : ℚ) (hi : 0 < i) (ht : 0 ≤ t) :
    0 ≤ fmodf t i ∧ fmodf t i < i := by
  have hq : 0 ≤ t / i := div_nonneg ht (le_of_lt hi)
  unfold fmodf truncQ
  rw [if_pos hq]
  have h1 : ((⌊t / i⌋ : Int) : ℚ) ≤ t / i := Int.floor_le _
  have h2 : t / i < ((⌊t / i⌋ : Int) : ℚ) + 1 := Int.lt_floor_add_one _
  have h3 : t / i * i = t := div_mul_cancel₀ t (ne_of_gt hi)
  constructor
  · have := mul_le_mul_of_nonneg_right h1 (le_of_lt hi)
    rw [h3] at this
    linarith
  · have := mul_lt_mul_of_pos_right h2 hi
    rw [h3] at this
    linarith

/-- Away from the boundary the block does what the clamp is for: when fire is not
held or the ship is dead, a shot timer `t ≥ 0` other than the interval itself is
left in `[0, interval)`. -/
theorem shooting_idle_clamp (m : Libm) (fuel : Nat) (player : Ship) (wt : WeaponType)
    (keySpace : Bool) (dt t : ℚ) (ps : List Projectile)
    (hidle : (player.IsAlive && keySpace) = false) (hR : 0 < player.GetFireRate wt)
    (ht : 0 ≤ t) (hne : t ≠ 1 / player.GetFireRate wt) :
    ∃ t1, shooting m fuel player wt keySpace dt t ps = some (t1, ps)
      ∧ 0 ≤ t1 ∧ t1 < 1 / player.GetFireRate wt := by
  have hi : 0 < 1 / player.GetFireRate wt := one_div_pos.mpr hR
  unfold shooting
  rw [hidle]
  simp only [Bool.false_eq_true, if_false]
  by_cases hgt : t > 1 / player.GetFireRate wt
  · rw [if_pos hgt]
    exact ⟨_, rfl, fmodf_bounds t _ hi ht⟩
  · rw [if_neg hgt]
    exact ⟨t, rfl, ht, lt_of_le_of_ne (not_lt.mp hgt) hne⟩

/-- At the boundary the block leaves the timer where it is: when fire is not held
or the ship is dead and the shot timer equals the interval, the timer stays equal
to the interval. -/
theorem shooting_idle_at_interval (m : Libm) (fuel : Nat) (player : Ship) (wt : WeaponType)
    (keySpace : Bool) (dt : ℚ) (ps : List Projectile)
    (hidle : (player.IsAlive && keySpace) = false) :
    shooting m fuel player wt keySpace dt (1 / player.GetFireRate wt) ps
      = some (1 / player.GetFireRate wt, ps) := by
  unfold shooting
  rw [hidle]
  simp only [Bool.false_eq_true, if_false]
  rw [if_neg (lt_irrefl _)]

theorem sampleFireTab_beforeCollisions :
    beforeCollisions sampleLibm 0 sampleFireTabInput (initialState (fun _ => 80) (1 / 2))
      = some { initialState (fun _ => 80) (1 / 2) with
          spawnTimer := 1 / 12, currentWeapon := .BULLET, shotTimer := 1 / 12 } := by
  simp [beforeCollisions, beforeShooting, shootingStep, shooting, fireLoop, weaponStep,
    shapeStep, restartStep, updateStep, spawnStep, projectileUpdateStep, updateProjectiles,
    sampleFireTabInput, sampleIdleInput, initialState, Ship.new, Ship.LoadCurrentTexture,
    Ship.Update, Ship.IsAlive, Ship.GetFireRate, Ship.GetSpacing, RandomFloat, C_SPAWN_MIN,
    C_SPAWN_MAX, WeaponType.ofInt, WeaponType.toInt]
  norm_num
  rfl

theorem sampleTimer_frame1 :
    frameStep sampleLibm 0 sampleFireTabInput (initialState (fun _ => 80) (1 / 2))
      = some sampleTimerState1 := by
  unfold frameStep
  rw [sampleFireTab_beforeCollisions]
  rfl

theorem sampleTimer_beforeCollisions2 :
    beforeCollisions sampleLibm 0 sampleTabInput sampleTimerState1 = some sampleTimerState2 := by
  simp [beforeCollisions, beforeShooting, shootingStep, shooting, weaponStep,
    shapeStep, restartStep, updateStep, spawnStep, projectileUpdateStep, updateProjectiles,
    sampleTabInput, sampleIdleInput, sampleTimerState1, sampleTimerState2, initialState, Ship.new,
    Ship.LoadCurrentTexture, Ship.Update, Ship.IsAlive, Ship.GetFireRate, RandomFloat,
    C_SPAWN_MIN, C_SPAWN_MAX, WeaponType.ofInt, WeaponType.toInt]
  norm_num
  rfl

theorem sampleTimer_frame2 :
    frameStep sampleLibm 0 sampleTabInput sampleTimerState1 = some sampleTimerState2 := by
  unfold frameStep
  rw [sampleTimer_beforeCollisions2]
  rfl

theorem sampleTimer_beforeCollisions3 :
    beforeCollisions sampleLibm 0 sampleTabInput sampleTimerState2 = some sampleTimerState := by
  simp [beforeCollisions, beforeShooting, shootingStep, shooting, weaponStep,
    shapeStep, restartStep, updateStep, spawnStep, projectileUpdateStep, updateProjectiles,
    sampleTabInput, sampleIdleInput, sampleTimerState2, sampleTimerState, initialState, Ship.new,
    Ship.LoadCurrentTexture, Ship.Update, Ship.IsAlive, Ship.GetFireRate, RandomFloat,
    C_SPAWN_MIN, C_SPAWN_MAX, WeaponType.ofInt, WeaponType.toInt]
  norm_num
  rfl

theorem sampleTimer_frame3 :
    frameStep sampleLibm 0 sampleTabInput sampleTimerState2 = some sampleTimerState := by
  unfold frameStep
  rw [sampleTimer_beforeCollisions3]
  rfl

theorem sampleTimerState_reachable : Reachable sampleLibm sampleTimerState :=
  Reachable.frame 0 sampleTabInput sampleTimerState2 sampleTimerState
    (Reachable.frame 0 sampleTabInput sampleTimerState1 sampleTimerState2
      (Reachable.frame 0 sampleFireTabInput _ sampleTimerState1 (Reachable.start _ _)
        sampleTimer_frame1)
      sampleTimer_frame2)
    sampleTimer_frame3

theorem sampleTimerState_interval :
    1 / sampleTimerState.player.GetFireRate sampleTimerState.currentWeapon = 1 / 12 := by
  simp [sampleTimerState, initialState, Ship.new, Ship.LoadCurrentTexture, Ship.GetFireRate]

theorem sampleTimer_fire :
    shooting sampleLibm 1 sampleTimerState.player sampleTimerState.currentWeapon
        sampleFireInput.keys.keySpace sampleFireInput.dt sampleTimerState.shotTimer []
      = some (0, fireEvent sampleLibm sampleTimerState.player .LASER
          (sampleTimerState.player.GetSpacing .LASER
            * sampleTimerState.player.GetFireRate .LASER)) := by
  simp [shooting, fireLoop, sampleTimerState, sampleFireInput, sampleIdleInput, initialState,
    Ship.new, Ship.LoadCurrentTexture, Ship.IsAlive, Ship.GetFireRate, Ship.GetSpacing]

/-- C17 at a reachable state: after a frame in which fire is not held, entered
with shot timer 1/12 and leaving LASER selected (interval 1/12), the shot timer
is still 1/12, which is the interval and so not below it; and the next shooting
block with fire held and a frame delta of 0 fires one laser projectile. -/
theorem C17_timer_at_interval :
    Reachable sampleLibm sampleTimerState2
      ∧ 0 ≤ sampleTimerState2.shotTimer
      ∧ sampleTabInput.keys.keySpace = false
      ∧ frameStep sampleLibm 0 sampleTabInput sampleTimerState2 = some sampleTimerState
      ∧ sampleTimerState.currentWeapon = .LASER
      ∧ sampleTimerState.shotTimer
          = 1 / sampleTimerState.player.GetFireRate sampleTimerState.currentWeapon
      ∧ ¬ (sampleTimerState.shotTimer
          < 1 / sampleTimerState.player.GetFireRate sampleTimerState.currentWeapon)
      ∧ sampleFireInput.dt = 0
      ∧ shooting sampleLibm 1 sampleTimerState.player sampleTimerState.currentWeapon
            sampleFireInput.keys.keySpace sampleFireInput.dt sampleTimerState.shotTimer []
          = some (0, fireEvent sampleLibm sampleTimerState.player .LASER
              (sampleTimerState.player.GetSpacing .LASER
                * sampleTimerState.player.GetFireRate .LASER))
      ∧ (fireEvent sampleLibm sampleTimerState.player .LASER
            (sampleTimerState.player.GetSpacing .LASER
              * sampleTimerState.player.GetFireRate .LASER)).length = 1 := by
  have hint := sampleTimerState_interval
  have hst : sampleTimerState.shotTimer = 1 / 12 := rfl
  refine ⟨Reachable.frame 0 sampleTabInput sampleTimerState1 sampleTimerState2
      (Reachable.frame 0 sampleFireTabInput _ sampleTimerState1 (Reachable.start _ _)
        sampleTimer_frame1) sampleTimer_frame2,
    ?_, rfl, sampleTimer_frame3, rfl, ?_, ?_, rfl, sampleTimer_fire, rfl⟩
  · show (0 : ℚ) ≤ 1 / 12
    norm_num
  · rw [hint, hst]
  · rw [hint, hst]
    exact lt_irrefl _

end AsteroidGame
